import Mathlib

/- Verification development for optlam.js, an optimal lambda-calculus
   normalizer based on Lamping's abstract algorithm over interaction nets,
   together with the naive evaluator of lambda_calculus.js.

   The JavaScript module state (memory buffer, free list, id counter,
   statistics) is embedded as an explicit state record threaded through
   every operation.  The memory buffer is a map from cell index to integer
   plus an explicit length, matching the JS array of numbers; indices,
   ports and node pointers are natural numbers; types and tags are
   integers (the sentinel tag is -1).  Loops that are not structurally
   recursive in the source (the rewrite walk and the decoder) take an
   explicit fuel argument and return an optional result, with fuel
   exhaustion modelling non-termination. -/

namespace Optlam

/-- De-Bruijn lambda terms, as in lambda_calculus.js:
    data Term = Lam Term | App Term Term | Var Int. -/
inductive Term where
  | Var : Int → Term
  | Lam : Term → Term
  | App : Term → Term → Term
deriving DecidableEq, Repr

/-- The memory buffer, a map from cell index to integer represented as a
    binary trie (position 0 at the root, positions 2p+1 and 2p+2 in the
    children of position p).  Unwritten cells read as 0; the JS buffer
    holds undefined there, a value none of the runs considered ever reads
    back (every cell of a node is written by Node before use). -/
inductive Mem where
  | mt : Mem
  | nd : Int → Mem → Mem → Mem
deriving DecidableEq, Repr

/-- The trie path of a cell index: position 0 is the empty path; position
    n+1 descends into the left child when n+1 is odd and into the right
    child when it is even, at position (n+1-1)/2 resp. (n+1-2)/2 of that
    child.  The first argument is structural fuel; any fuel at least the
    index yields the path (the bit length of n never exceeds n). -/
def bpath : Nat → Nat → List Bool
  | _, 0 => []
  | 0, _ + 1 => []
  | f + 1, n + 1 =>
      (decide ((n + 1) % 2 = 1)) ::
        bpath f (if (n + 1) % 2 = 1 then n / 2 else (n - 1) / 2)

/-- Read a cell of the memory buffer at a trie path. -/
def Mem.getP : Mem → List Bool → Int
  | .mt, _ => 0
  | .nd v _ _, [] => v
  | .nd _ l r, b :: bs => if b then l.getP bs else r.getP bs

/-- Write a cell of the memory buffer at a trie path. -/
def Mem.setP : Mem → List Bool → Int → Mem
  | .mt, [], v => .nd v .mt .mt
  | .mt, b :: bs, v =>
      if b then .nd 0 (Mem.setP .mt bs v) .mt else .nd 0 .mt (Mem.setP .mt bs v)
  | .nd _ l r, [], v => .nd v l r
  | .nd w l r, b :: bs, v =>
      if b then .nd w (l.setP bs v) r else .nd w l (r.setP bs v)

/-- Read a cell of the memory buffer. -/
def Mem.get (m : Mem) (n : Nat) : Int := m.getP (bpath n n)

/-- Write a cell of the memory buffer. -/
def Mem.set (m : Mem) (n : Nat) (v : Int) : Mem := m.setP (bpath n n) v

/-- Node type ROT (the root marker). -/
def ROT : Int := 0

/-- Node type LAM. -/
def LAM : Int := 1

/-- Node type APP. -/
def APP : Int := 2

/-- Node type DUP. -/
def DUP : Int := 4

/-- Node type ERA. -/
def ERA : Int := 5

/-- The statistics record of optlam.js: iteration count, rule application
    count (commute or annihilate), and allocated memory cell count. -/
structure Stats where
  iterations   : Nat
  applications : Nat
  used_memory  : Nat
deriving DecidableEq, Repr

/-- The module state of optlam.js: the id counter, the memory buffer
    (cell map plus its length), the free list (head = most recently
    pushed), and the statistics.  The allocs field is a specification
    ghost recording (index, type, tag) of every allocation performed;
    it does not influence any computation. -/
structure St where
  next_id : Nat
  mem     : Mem
  len     : Nat
  garbage : List Nat
  stats   : Stats
  allocs  : List (Nat × Int × Int)

/-- Write one memory cell; the buffer length grows to cover the index,
    as a JS array assignment does. -/
def memSet (s : St) (i : Nat) (v : Int) : St :=
  { s with mem := s.mem.set i v, len := max s.len (i + 1) }

/-- get_target_port: which port on the target node this port connects to. -/
def get_target_port (s : St) (node port : Nat) : Nat :=
  (s.mem.get (node + 1 + port)).toNat

/-- get_target: the target node this port connects to. -/
def get_target (s : St) (node port : Nat) : Nat :=
  (s.mem.get (node + 4 + port)).toNat

/-- get_id: a node's unique id. -/
def get_id (s : St) (node : Nat) : Int :=
  s.mem.get (node + 7)

/-- get_tag: a node's tag (decides which rule applies on active pairs). -/
def get_tag (s : St) (node : Nat) : Int :=
  s.mem.get (node + 8)

/-- get_type: a node's type (used for decoding). -/
def get_type (s : St) (node : Nat) : Int :=
  s.mem.get node

/-- half_link: one-way link from node's port to target's target_port. -/
def half_link (s : St) (node port target target_port : Nat) : St :=
  memSet (memSet s (node + 1 + port) (Int.ofNat target_port))
    (node + 4 + port) (Int.ofNat target)

/-- link: two-way link between two nodes' ports. -/
def link (s : St) (a_target a_port b_target b_port : Nat) : St :=
  half_link (half_link s a_target a_port b_target b_port)
    b_target b_port a_target a_port

/-- Node: allocates space for a node of the given type and tag and returns
    its memory index.  The JS source computes the index as
    garbage.pop() || memory.length: the free list is popped whenever it is
    non-empty, and the popped slot is used unless it is the falsy index 0,
    in which case a fresh slot at the end of the arena is used instead. -/
def Node (ty tag : Int) (s : St) : Nat × St :=
  let (idx, s) :=
    match s.garbage with
    | []      => (s.len, s)
    | g :: gs => (if g = 0 then s.len else g, { s with garbage := gs })
  let s := memSet s (idx + 0) ty
  let s := memSet s (idx + 1) 0
  let s := memSet s (idx + 2) 0
  let s := memSet s (idx + 3) 0
  let s := memSet s (idx + 4) 0
  let s := memSet s (idx + 5) 0
  let s := memSet s (idx + 6) 0
  let s := memSet s (idx + 7) (Int.ofNat (s.next_id + 1))
  let s := memSet s (idx + 8) tag
  let s := { s with
    next_id := s.next_id + 1,
    stats := { s.stats with used_memory := s.len },
    allocs := s.allocs ++ [(idx, ty, tag)] }
  (idx, s)

/-- annihilate: rule for two colliding nodes of identical tags.  Cross-links
    the two nodes' non-principal neighbors and pushes both nodes onto the
    free list.  As in the source, the reads for the second cross-link happen
    after the first cross-link has been written. -/
def annihilate (a b : Nat) (s : St) : St :=
  let s1 := link s (get_target s a 1) (get_target_port s a 1)
    (get_target s b 1) (get_target_port s b 1)
  let s2 := link s1 (get_target s1 a 2) (get_target_port s1 a 2)
    (get_target s1 b 2) (get_target_port s1 b 2)
  { s2 with garbage := b :: a :: s2.garbage }

/-- commute: rule for two colliding nodes of different tags.  Allocates two
    fresh nodes copying the originals' type and tag, then rewires; the two
    original nodes are rewired in place and remain part of the net. -/
def commute (dup nod : Nat) (s : St) : St :=
  let (dup_b, s1) := Node (get_type s dup) (get_tag s dup) s
  let (nod_b, s2) := Node (get_type s1 nod) (get_tag s1 nod) s1
  let s3 := link s2 nod 0 (get_target s2 dup 1) (get_target_port s2 dup 1)
  let s4 := link s3 dup 0 (get_target s3 nod 1) (get_target_port s3 nod 1)
  let s5 := link s4 nod 1 dup 1
  let s6 := link s5 nod_b 0 (get_target s5 dup 2) (get_target_port s5 dup 2)
  let s7 := link s6 dup_b 0 (get_target s6 nod 2) (get_target_port s6 nod 2)
  let s8 := link s7 dup 2 nod_b 1
  let s9 := link s8 nod 2 dup_b 1
  link s9 nod_b 2 dup_b 2

/-- clean: wipes all module state (memory, free list, id counter, stats). -/
def clean : St :=
  { next_id := 0, mem := Mem.mt, len := 0, garbage := [],
    stats := { iterations := 0, applications := 0, used_memory := 0 },
    allocs := [] }

/-- A (target, port) pair as produced by the encoder's Link helper. -/
structure ELink where
  target : Nat
  port   : Nat
deriving DecidableEq, Repr

/-- The inner recursion of net_encode: translates a term given the scope
    (enclosing LAM nodes, innermost first), the up-link the translated
    subterm must attach to, the state, and the duplicator tag counter.
    Returns the link to the subterm's root connection, the new state and
    the new tag counter. -/
def net_encode_go : Term → List Nat → ELink → St → Nat → ELink × St × Nat
  | Term.Lam body, scope, up, s, ntag =>
      let (del, s1) := Node ERA (-1) s
      let (lam, s2) := Node LAM 0 s1
      let s3 := half_link s2 lam 0 up.target up.port
      let s4 := link s3 lam 1 del 0
      let s5 := link s4 del 1 del 2
      let (bod, s6, ntag1) := net_encode_go body (lam :: scope) ⟨lam, 2⟩ s5 ntag
      let s7 := half_link s6 lam 2 bod.target bod.port
      (⟨lam, 0⟩, s7, ntag1)
  | Term.App l r, scope, up, s, ntag =>
      let (app, s1) := Node APP 0 s
      let s2 := half_link s1 app 2 up.target up.port
      let (left, s3, ntag1) := net_encode_go l scope ⟨app, 0⟩ s2 ntag
      let s4 := half_link s3 app 0 left.target left.port
      let (right, s5, ntag2) := net_encode_go r scope ⟨app, 1⟩ s4 ntag1
      let s6 := half_link s5 app 1 right.target right.port
      (⟨app, 2⟩, s6, ntag2)
  | Term.Var i, scope, up, s, ntag =>
      let lam := scope.getD i.toNat 0
      if get_type s (get_target s lam 1) = ERA then
        let s1 := half_link s lam 1 up.target up.port
        (⟨lam, 1⟩, s1, ntag)
      else
        let (dup, s1) := Node DUP (Int.ofNat (ntag + 1)) s
        let s2 := half_link s1 dup 0 lam 1
        let s3 := half_link s2 dup 1 up.target up.port
        let s4 := half_link s3 dup 2 (get_target s3 lam 1) (get_target_port s3 lam 1)
        let s5 := half_link s4 (get_target s4 lam 1) (get_target_port s4 lam 1) dup 2
        let s6 := half_link s5 lam 1 dup 0
        (⟨dup, 1⟩, s6, ntag + 1)

/-- net_encode: converts a lambda term to an interaction net rooted at a
    freshly allocated ROT node, whose index is returned. -/
def net_encode (root : Term) (s : St) : Nat × St :=
  let (net_root, s1) := Node ROT (-1) s
  let (el, s2, _) := net_encode_go root [] ⟨net_root, 0⟩ s1 0
  let s3 := half_link s2 net_root 0 el.target el.port
  (net_root, s3)

/-- The decoder's recursion, with fuel.  Mirrors the stack machine of
    net_decode: the DUP case is the tail call, LAM and APP are the calls
    with continuations 1 and 2/3.  The node_depth map (node id to depth at
    first visit) is threaded through the whole traversal, as the single
    shared node_depth object is in the source.  Node types without a case
    in the source switch loop forever there; here they recurse on the same
    arguments, consuming fuel. -/
def net_decode_go (s : St) :
    Nat → Nat → Nat → Nat → List Nat → List (Int × Nat) →
    Option (Term × List (Int × Nat))
  | 0, _, _, _, _, _ => none
  | fuel + 1, node, port, depth, exitP, nd =>
      let nd := if (nd.lookup (get_id s node)).isNone then
          (get_id s node, depth) :: nd else nd
      if get_type s node = DUP then
        let go_link := if 0 < port then 0 else exitP.headD 0
        let exitP1 := if 0 < port then port :: exitP else exitP.tail
        net_decode_go s fuel (get_target s node go_link)
          (get_target_port s node go_link) depth exitP1 nd
      else if get_type s node = LAM then
        if port = 1 then
          some (Term.Var ((depth : Int) -
            ((nd.lookup (get_id s node)).getD 0 : Int) - 1), nd)
        else
          match net_decode_go s fuel (get_target s node 2)
              (get_target_port s node 2) (depth + 1) exitP nd with
          | some (t, nd1) => some (Term.Lam t, nd1)
          | none => none
      else if get_type s node = APP then
        match net_decode_go s fuel (get_target s node 0)
            (get_target_port s node 0) depth exitP nd with
        | some (l, nd1) =>
            match net_decode_go s fuel (get_target s node 1)
                (get_target_port s node 1) depth exitP nd1 with
            | some (r, nd2) => some (Term.App l r, nd2)
            | none => none
        | none => none
      else
        net_decode_go s fuel node port depth exitP nd

/-- net_decode: converts an interaction net back to a lambda term, starting
    from the root's port 0 at depth 0 with an empty exit path. -/
def net_decode (root : Nat) (s : St) (fuel : Nat) : Option Term :=
  (net_decode_go s fuel (get_target s root 0) (get_target_port s root 0)
    0 [] []).map (·.1)

/-- The walker state of net_reduce: the module state, the solid set (ids
    confirmed normal), the exit map (id to entry port), the pending visit
    stack, and the inner-loop position cur (the current next_target and
    next_port; none means the outer loop pops the next probe).  The trace
    field is a specification ghost recording, for each rule application,
    whether it was an annihilation and the two nodes' types; it does not
    influence any computation. -/
structure RSt where
  st    : St
  solid : List Int
  exitM : List (Int × Nat)
  visit : List (Nat × Nat)
  cur   : Option (Nat × Nat)
  trace : List (Bool × Int × Int)

/-- One step of the net_reduce walk: either pop the next pending probe, or
    run one iteration of the inner loop (count the visit; skip if solid;
    at a principal-principal meeting of two non-sentinel tags apply
    annihilate or commute and continue from the recorded exit; at a passive
    principal port mark solid and push the two auxiliary ports; at an
    auxiliary port record the entry and continue through port 0). -/
def reduce_step (r : RSt) : RSt :=
  match r.cur with
  | none =>
      match r.visit with
      | [] => r
      | (n, p) :: rest =>
          { r with visit := rest,
                   cur := some (get_target r.st n p, get_target_port r.st n p) }
  | some (nt, np) =>
      let s := { r.st with stats :=
        { r.st.stats with iterations := r.st.stats.iterations + 1 } }
      let pt := get_target s nt np
      let pp := get_target_port s nt np
      if r.solid.contains (get_id s nt) then
        { r with st := s, cur := none }
      else if np = 0 then
        if pp = 0 ∧ get_tag s pt ≠ -1 ∧ get_tag s nt ≠ -1 then
          let s := { s with stats :=
            { s.stats with applications := s.stats.applications + 1 } }
          let ep := ((r.exitM.lookup (get_id s pt)).getD 0)
          let exit_target := get_target s pt ep
          let exit_port := get_target_port s pt ep
          let isAnn := get_tag s pt = get_tag s nt
          let s1 := if isAnn then annihilate pt nt s else commute pt nt s
          { r with st := s1,
                   trace := (decide (get_tag s pt = get_tag s nt),
                     get_type s pt, get_type s nt) :: r.trace,
                   cur := some (get_target s1 exit_target exit_port,
                     get_target_port s1 exit_target exit_port) }
        else
          { r with st := s, solid := get_id s nt :: r.solid,
                   visit := (nt, 1) :: (nt, 2) :: r.visit, cur := none }
      else
        { r with st := s, exitM := (get_id s nt, np) :: r.exitM,
                 cur := some (get_target s nt 0, get_target_port s nt 0) }

/-- Whether the walk has finished: no inner position and no pending probes. -/
def reduce_done (r : RSt) : Bool :=
  r.cur.isNone && r.visit.isEmpty

/-- Iterate reduce_step up to the given fuel, stopping at a finished state. -/
def reduce_run : Nat → RSt → RSt
  | 0, r => r
  | fuel + 1, r => if reduce_done r then r else reduce_run fuel (reduce_step r)

/-- The initial walker state of net_reduce: the iteration and application
    counters are zeroed, and the walk is seeded with the probe (net, 0). -/
def reduce_start (net : Nat) (s : St) : RSt :=
  { st := { s with stats :=
      { s.stats with applications := 0, iterations := 0 } },
    solid := [], exitM := [], visit := [(net, 0)], cur := none, trace := [] }

/-- net_reduce: reduces an interaction net by walking it from the root. -/
def net_reduce (net : Nat) (fuel : Nat) (s : St) : RSt :=
  reduce_run fuel (reduce_start net s)

/-- reduce: the main API.  Wipes the state, encodes the term, reduces the
    net and decodes it back.  Returns some term only when the walk finished
    within the given fuel (the source loops forever instead). -/
def reduce (term : Term) (fuel dfuel : Nat) : Option Term :=
  let (net, s1) := net_encode term clean
  let r := net_reduce net fuel s1
  if reduce_done r then net_decode net r.st dfuel else none

/- Observers used to state graph-level properties: reachability from the
   root by following links, active pairs, and link symmetry. -/

/-- One expansion round of reachability: add the targets of all three ports
    of every node collected so far. -/
def reach_once (s : St) (acc : List Nat) : List Nat :=
  acc.foldl (fun a n =>
    ([0, 1, 2].map (get_target s n)).foldl
      (fun a2 x => if a2.contains x then a2 else x :: a2) a) acc

/-- Iterate reach_once until it adds nothing or the fuel runs out. -/
def reach_fix : Nat → St → List Nat → List Nat
  | 0, _, acc => acc
  | f + 1, s, acc =>
      let acc2 := reach_once s acc
      if acc2.length = acc.length then acc else reach_fix f s acc2

/-- Nodes reachable from the root by following links, computed by enough
    expansion rounds to saturate any net that fits the arena. -/
def reachable (s : St) (root : Nat) : List Nat :=
  reach_fix (s.len / 9 + 1) s [root]

/-- Whether the node begins an active pair: its principal port and the
    principal port of a distinct node target each other. -/
def is_active_pair (s : St) (a : Nat) : Bool :=
  let b := get_target s a 0
  get_target_port s a 0 = 0 && get_target s b 0 = a &&
    get_target_port s b 0 = 0 && a ≠ b

/-- Whether some reachable active pair has an Eraser on one side. -/
def era_pair_reachable (s : St) (root : Nat) : Bool :=
  (reachable s root).any fun a =>
    is_active_pair s a && get_type s a = ERA

/-- Whether some reachable active pair has an Eraser on one side while
    neither node of the pair has been pushed to the free list. -/
def era_pair_unfreed (s : St) (root : Nat) : Bool :=
  (reachable s root).any fun a =>
    is_active_pair s a && get_type s a = ERA &&
      !(s.garbage.contains a) && !(s.garbage.contains (get_target s a 0))

/-- Whether every reachable active pair has a sentinel-tagged node (tag -1,
    an Eraser or the Root) on at least one side. -/
def only_sentinel_pairs (s : St) (root : Nat) : Bool :=
  (reachable s root).all fun a =>
    !(is_active_pair s a) || get_tag s a = -1 ||
      get_tag s (get_target s a 0) = -1

/-- The ports of a node carrying meaning for its type: the Root uses only
    its port 0, all other node types use all three ports. -/
def ports_of (s : St) (n : Nat) : List Nat :=
  if get_type s n = ROT then [0] else [0, 1, 2]

/-- Whether, over the nodes reachable from the root, every meaningful port
    holds a valid symmetric link: the target is an in-arena node slot, the
    target port is one of the three ports, and the target port links back. -/
def sym_ok (s : St) (root : Nat) : Bool :=
  (reachable s root).all fun n =>
    (ports_of s n).all fun p =>
      let t := get_target s n p
      let tp := get_target_port s n p
      t % 9 = 0 && t + 9 ≤ s.len && tp < 3 &&
        get_target s t tp = n && get_target_port s t tp = p

/-- The list of walker states passed through by reduce_run, including the
    initial and final states. -/
def run_states : Nat → RSt → List RSt
  | 0, r => [r]
  | fuel + 1, r =>
      if reduce_done r then [r] else r :: run_states fuel (reduce_step r)

/-- The tags of the Duplicator entries of an allocation trace. -/
def dup_tags (l : List (Nat × Int × Int)) : List Int :=
  (l.filter fun e => e.2.1 = DUP).map fun e => e.2.2

/-- How many trace entries are beta rewrites: annihilations of a Lambda
    with an Apply node. -/
def beta_count (tr : List (Bool × Int × Int)) : Nat :=
  tr.countP fun e =>
    e.1 && ((e.2.1 = LAM && e.2.2 = APP) || (e.2.1 = APP && e.2.2 = LAM))

/- The reference evaluator of lambda_calculus.js.  Its substitute helper
   calls itself with subs switched off to shift the substituted value; that
   instance never re-enters the subs branch, and is split off here as
   lc_shift so that both functions are structurally recursive. -/

/-- The subs=false instance of lambda_calculus.js's substitute: adds wrap
    to every variable index strictly greater than depth. -/
def lc_shift (depth wrap : Int) : Term → Term
  | Term.Var index => Term.Var (index + if depth < index then wrap else 0)
  | Term.Lam body => Term.Lam (lc_shift (depth + 1) wrap body)
  | Term.App l r => Term.App (lc_shift depth wrap l) (lc_shift depth wrap r)

/-- The subs=true instance of lambda_calculus.js's substitute: replaces the
    variable bound at depth by the value (shifted to the current depth) and
    adds wrap to every variable index strictly greater than depth. -/
def lc_substitute (value : Term) (depth wrap : Int) : Term → Term
  | Term.Var index =>
      if index = depth then lc_shift (-1) depth value
      else Term.Var (index + if depth < index then wrap else 0)
  | Term.Lam body => Term.Lam (lc_substitute value (depth + 1) wrap body)
  | Term.App l r =>
      Term.App (lc_substitute value depth wrap l) (lc_substitute value depth wrap r)

/-- lambda_calculus.js's reduce: the naive tree-substitution normalizer,
    with fuel bounding the recursion depth (the source recurses without a
    bound and fails to terminate on non-normalizing terms). -/
def lc_reduce : Nat → Term → Option Term
  | 0, _ => none
  | _ + 1, Term.Var i => some (Term.Var i)
  | fuel + 1, Term.Lam b => (lc_reduce fuel b).map Term.Lam
  | fuel + 1, Term.App l r =>
      match lc_reduce fuel l, lc_reduce fuel r with
      | some l1, some r1 =>
          match l1 with
          | Term.Lam b => lc_reduce fuel (lc_substitute r1 0 (-1) b)
          | _ => some (Term.App l1 r1)
      | _, _ => none

/- Concrete terms used by the theorems below. -/

/-- The identity function. -/
def term_id : Term := Term.Lam (Term.Var 0)

/-- The identity applied to the identity. -/
def term_id_app : Term := Term.App term_id term_id

/-- The term λa.((λx.λy.y) (λz.a)): its reduction leaves an Eraser facing
    a Lambda principal-to-principal, reachable from the Root through the
    unused binder a. -/
def term_era_pair : Term :=
  Term.Lam (Term.App (Term.Lam (Term.Lam (Term.Var 0)))
    (Term.Lam (Term.Var 1)))

/-- The term (λx.x x) (λy.y): its binder x is used twice, so its encoding
    holds a Duplicator and its reduction performs a commutation. -/
def term_dup_share : Term :=
  Term.App (Term.Lam (Term.App (Term.Var 0) (Term.Var 0))) term_id

/-- The Church numeral 2. -/
def term_two : Term :=
  Term.Lam (Term.Lam (Term.App (Term.Var 1)
    (Term.App (Term.Var 1) (Term.Var 0))))

/-- Church 2 applied to Church 2 (normalizing to Church 4). -/
def term_two_two : Term := Term.App term_two term_two

/-- The family of terms on which graph-level properties are checked. -/
def reduce_family : List Term :=
  [term_id_app, term_era_pair, term_dup_share, term_two_two]

/-- The encoded net of a term, built from a clean state: the root index
    and the resulting state. -/
def start_net (t : Term) : Nat × St := net_encode t clean

/-- Encode from a clean state, then reduce with the given fuel. -/
def run1 (t : Term) (fuel : Nat) : RSt :=
  net_reduce (start_net t).1 fuel (start_net t).2

/-- Whether, for the encoded net of a term, one full reduction reaches the
    finished state, a second full reduction also finishes, both decode to
    the same term, and the decode succeeds. -/
def idem_check (t : Term) (fuel dfuel : Nat) : Bool :=
  let (net, s1) := net_encode t clean
  let r1 := net_reduce net fuel s1
  let r2 := net_reduce net fuel r1.st
  reduce_done r1 && reduce_done r2 &&
    net_decode net r1.st dfuel = net_decode net r2.st dfuel &&
    (net_decode net r1.st dfuel).isSome

/-- The subfamily whose reductions are checked state by state. -/
def trace_family : List Term := [term_id_app, term_era_pair, term_dup_share]

/-- A two-node state: an Eraser at slot 0 and a Lambda at slot 9 joined
    principal port to principal port. -/
def c2_state : St :=
  let p1 := Node ERA (-1) clean
  let p2 := Node LAM 0 p1.2
  link p2.2 0 0 9 0

/-- A walker state whose cursor has just arrived at the Lambda's principal
    port of c2_state, facing the Eraser. -/
def c2_rst : RSt :=
  { st := c2_state, solid := [], exitM := [], visit := [], cur := some (9, 0),
    trace := [] }

/-- A state with a Lambda at slot 0 whose port 1 still points at an Eraser
    at slot 9: the first-reference situation of the encoder's Variable case. -/
def c5_state_a : St :=
  let p1 := Node LAM 0 clean
  let p2 := Node ERA (-1) p1.2
  link p2.2 0 1 9 0

/-- A state with a Lambda at slot 0 whose port 1 points at an Apply node at
    slot 9 (a previous use site): the later-reference situation of the
    encoder's Variable case. -/
def c5_state_b : St :=
  let p1 := Node LAM 0 clean
  let p2 := Node APP 0 p1.2
  link p2.2 0 1 9 0

/-- A six-node state: a Duplicator (tag 1) at slot 0 and a Lambda (tag 0)
    at slot 9 joined principal to principal, with four Erasers at slots
    18, 27, 36, 45 as their non-principal neighbors. -/
def c6_state : St :=
  let p1 := Node DUP 1 clean
  let p2 := Node LAM 0 p1.2
  let p3 := Node ERA (-1) p2.2
  let p4 := Node ERA (-1) p3.2
  let p5 := Node ERA (-1) p4.2
  let p6 := Node ERA (-1) p5.2
  let s := link p6.2 0 0 9 0
  let s := link s 0 1 18 0
  let s := link s 0 2 27 0
  let s := link s 9 1 36 0
  let s := link s 9 2 45 0
  s

/-- A state whose free list holds the single slot index 0 while the arena
    already has two slots. -/
def c9_state : St := { clean with len := 18, garbage := [0], next_id := 2 }

/-- A state whose free list holds the single slot index 9. -/
def c9w_state : St := { clean with len := 18, garbage := [9], next_id := 2 }

/- Lemmas about the memory trie: reading after writing behaves as the
   pointwise update of a map from indices to integers. -/

/-- Reading a path after writing a path: the written value when the paths
    agree, the old value otherwise. -/
theorem Mem.getP_setP (p : List Bool) (m : Mem) (q : List Bool) (v : Int) :
    (m.setP p v).getP q = if p = q then v else m.getP q := by
  induction p generalizing m q with
  | nil => cases m <;> cases q <;> simp [Mem.setP, Mem.getP]
  | cons b bs ih =>
      cases m with
      | mt =>
          cases q with
          | nil => cases b <;> simp [Mem.setP, Mem.getP]
          | cons c cs => cases b <;> cases c <;> simp [Mem.setP, Mem.getP, ih]
      | nd w l r =>
          cases q with
          | nil => cases b <;> simp [Mem.setP, Mem.getP]
          | cons c cs => cases b <;> cases c <;> simp [Mem.setP, Mem.getP, ih]

/-- The path of index 0 is empty whatever the fuel. -/
theorem bpath_zero (f : Nat) : bpath f 0 = [] := by cases f <;> rfl

/-- Paths built with sufficient fuel agree exactly when the indices do. -/
theorem bpath_eq_iff (i : Nat) : ∀ (j f g : Nat), i ≤ f → j ≤ g →
    (bpath f i = bpath g j ↔ i = j) := by
  induction i using Nat.strong_induction_on with
  | _ i ih =>
    intro j f g hif hjg
    cases i with
    | zero =>
        cases j with
        | zero => simp [bpath_zero]
        | succ j1 =>
            cases g with
            | zero => omega
            | succ g1 => simp [bpath_zero, bpath]
    | succ i1 =>
        cases f with
        | zero => omega
        | succ f1 =>
            cases j with
            | zero =>
                cases g with
                | zero => simp [bpath_zero, bpath]
                | succ g1 => simp [bpath_zero, bpath]
            | succ j1 =>
                cases g with
                | zero => omega
                | succ g1 =>
                    by_cases hio : (i1 + 1) % 2 = 1 <;>
                      by_cases hjo : (j1 + 1) % 2 = 1
                    · rw [bpath, bpath, if_pos hio, if_pos hjo]
                      simp only [List.cons.injEq, decide_eq_decide]
                      rw [ih (i1 / 2) (by omega) (j1 / 2) f1 g1 (by omega)
                        (by omega)]
                      omega
                    · rw [bpath, bpath, if_pos hio, if_neg hjo]
                      simp only [List.cons.injEq, decide_eq_decide]
                      omega
                    · rw [bpath, bpath, if_neg hio, if_pos hjo]
                      simp only [List.cons.injEq, decide_eq_decide]
                      omega
                    · rw [bpath, bpath, if_neg hio, if_neg hjo]
                      simp only [List.cons.injEq, decide_eq_decide]
                      rw [ih ((i1 - 1) / 2) (by omega) ((j1 - 1) / 2) f1 g1
                        (by omega) (by omega)]
                      omega

/-- Reading a cell after writing a cell: the written value at the written
    index, the old value elsewhere. -/
theorem Mem.get_set (m : Mem) (i j : Nat) (v : Int) :
    (m.set i v).get j = if i = j then v else m.get j := by
  unfold Mem.set Mem.get
  rw [Mem.getP_setP]
  by_cases h : i = j
  · simp [h]
  · rw [if_neg h, if_neg]
    exact fun hc => h ((bpath_eq_iff i j i j le_rfl le_rfl).mp hc)

/-- Reading back the written cell. -/
theorem Mem.get_set_same (m : Mem) (i : Nat) (v : Int) :
    (m.set i v).get i = v := by
  rw [Mem.get_set, if_pos rfl]

/-- Reading an untouched cell. -/
theorem Mem.get_set_ne (m : Mem) (i j : Nat) (v : Int) (h : i ≠ j) :
    (m.set i v).get j = m.get j := by
  rw [Mem.get_set, if_neg h]

/- Projection lemmas: which fields each state operation leaves unchanged,
   and how the accessors read through the writes of half_link and Node for
   nodes on the standard 9-cell-aligned layout. -/

/-- half_link leaves the statistics unchanged. -/
@[simp] theorem stats_half_link (s : St) (n p t tp : Nat) :
    (half_link s n p t tp).stats = s.stats := rfl

/-- half_link leaves the free list unchanged. -/
@[simp] theorem garbage_half_link (s : St) (n p t tp : Nat) :
    (half_link s n p t tp).garbage = s.garbage := rfl

/-- half_link leaves the id counter unchanged. -/
@[simp] theorem next_id_half_link (s : St) (n p t tp : Nat) :
    (half_link s n p t tp).next_id = s.next_id := rfl

/-- half_link leaves the allocation trace unchanged. -/
@[simp] theorem allocs_half_link (s : St) (n p t tp : Nat) :
    (half_link s n p t tp).allocs = s.allocs := rfl

/-- link leaves the statistics unchanged. -/
@[simp] theorem stats_link (s : St) (a ap b bp : Nat) :
    (link s a ap b bp).stats = s.stats := rfl

/-- link leaves the free list unchanged. -/
@[simp] theorem garbage_link (s : St) (a ap b bp : Nat) :
    (link s a ap b bp).garbage = s.garbage := rfl

/-- link leaves the id counter unchanged. -/
@[simp] theorem next_id_link (s : St) (a ap b bp : Nat) :
    (link s a ap b bp).next_id = s.next_id := rfl

/-- link leaves the allocation trace unchanged. -/
@[simp] theorem allocs_link (s : St) (a ap b bp : Nat) :
    (link s a ap b bp).allocs = s.allocs := rfl

/-- The memory cells half_link leaves unchanged. -/
theorem mem_half_link_other (s : St) (n p t tp i : Nat)
    (h1 : i ≠ n + 1 + p) (h2 : i ≠ n + 4 + p) :
    (half_link s n p t tp).mem.get i = s.mem.get i := by
  unfold half_link memSet
  rw [Mem.get_set_ne _ _ _ _ (by omega), Mem.get_set_ne _ _ _ _ (by omega)]

/-- Reading a target through half_link, for aligned nodes. -/
theorem get_target_half_link (s : St) (n p t tp m q : Nat)
    (hn : 9 ∣ n) (hm : 9 ∣ m) (hp : p < 3) (hq : q < 3) :
    get_target (half_link s n p t tp) m q =
      if n = m ∧ p = q then t else get_target s m q := by
  unfold get_target half_link memSet
  rw [Mem.get_set]
  by_cases h : n = m ∧ p = q
  · obtain ⟨rfl, rfl⟩ := h
    rw [if_pos rfl, if_pos (by trivial)]
    exact Int.toNat_ofNat t
  · rw [if_neg (by omega), Mem.get_set_ne _ _ _ _ (by omega), if_neg h]

/-- Reading a target port through half_link, for aligned nodes. -/
theorem get_target_port_half_link (s : St) (n p t tp m q : Nat)
    (hn : 9 ∣ n) (hm : 9 ∣ m) (hp : p < 3) (hq : q < 3) :
    get_target_port (half_link s n p t tp) m q =
      if n = m ∧ p = q then tp else get_target_port s m q := by
  unfold get_target_port half_link memSet
  rw [Mem.get_set_ne _ _ _ _ (by omega)]
  by_cases h : n = m ∧ p = q
  · obtain ⟨rfl, rfl⟩ := h
    rw [Mem.get_set_same, if_pos (by trivial)]
    exact Int.toNat_ofNat tp
  · rw [Mem.get_set_ne _ _ _ _ (by omega), if_neg h]

/-- half_link never changes a node's type cell, for aligned nodes. -/
theorem get_type_half_link (s : St) (n p t tp m : Nat)
    (hn : 9 ∣ n) (hm : 9 ∣ m) (hp : p < 3) :
    get_type (half_link s n p t tp) m = get_type s m := by
  unfold get_type
  rw [mem_half_link_other _ _ _ _ _ _ (by omega) (by omega)]

/-- half_link never changes a node's tag cell, for aligned nodes. -/
theorem get_tag_half_link (s : St) (n p t tp m : Nat)
    (hn : 9 ∣ n) (hm : 9 ∣ m) (hp : p < 3) :
    get_tag (half_link s n p t tp) m = get_tag s m := by
  unfold get_tag
  rw [mem_half_link_other _ _ _ _ _ _ (by omega) (by omega)]

/-- half_link never changes a node's id cell, for aligned nodes. -/
theorem get_id_half_link (s : St) (n p t tp m : Nat)
    (hn : 9 ∣ n) (hm : 9 ∣ m) (hp : p < 3) :
    get_id (half_link s n p t tp) m = get_id s m := by
  unfold get_id
  rw [mem_half_link_other _ _ _ _ _ _ (by omega) (by omega)]

/-- The arena length after half_link. -/
theorem len_half_link (s : St) (n p t tp : Nat) :
    (half_link s n p t tp).len = max s.len (n + p + 5) := by
  unfold half_link memSet
  simp only []
  omega

/-- Node increments the id counter. -/
theorem next_id_Node (ty tag : Int) (s : St) :
    (Node ty tag s).2.next_id = s.next_id + 1 := by
  unfold Node; cases s.garbage <;> rfl

/-- Node appends its allocation to the trace. -/
theorem allocs_Node (ty tag : Int) (s : St) :
    (Node ty tag s).2.allocs = s.allocs ++ [((Node ty tag s).1, ty, tag)] := by
  unfold Node; cases s.garbage <;> rfl

/-- Node leaves the application counter unchanged. -/
theorem apps_Node (ty tag : Int) (s : St) :
    (Node ty tag s).2.stats.applications = s.stats.applications := by
  unfold Node; cases s.garbage <;> rfl

/-- Node leaves the iteration counter unchanged. -/
theorem iters_Node (ty tag : Int) (s : St) :
    (Node ty tag s).2.stats.iterations = s.stats.iterations := by
  unfold Node; cases s.garbage <;> rfl

/-- Node records the arena length reached by its writes as used_memory. -/
theorem used_memory_Node (ty tag : Int) (s : St) :
    (Node ty tag s).2.stats.used_memory = (Node ty tag s).2.len := by
  unfold Node; cases s.garbage <;> rfl

/-- The memory after Node: the nine cells of the returned slot written over
    the incoming memory. -/
theorem mem_Node (ty tag : Int) (s : St) :
    (Node ty tag s).2.mem =
      ((((((((s.mem.set ((Node ty tag s).1 + 0) ty).set
        ((Node ty tag s).1 + 1) 0).set ((Node ty tag s).1 + 2) 0).set
        ((Node ty tag s).1 + 3) 0).set ((Node ty tag s).1 + 4) 0).set
        ((Node ty tag s).1 + 5) 0).set ((Node ty tag s).1 + 6) 0).set
        ((Node ty tag s).1 + 7) (Int.ofNat (s.next_id + 1))).set
        ((Node ty tag s).1 + 8) tag := by
  unfold Node; cases s.garbage <;> rfl

/-- The memory cells Node leaves unchanged. -/
theorem mem_Node_other (ty tag : Int) (s : St) (i : Nat)
    (h : i < (Node ty tag s).1 ∨ (Node ty tag s).1 + 9 ≤ i) :
    (Node ty tag s).2.mem.get i = s.mem.get i := by
  rw [mem_Node]
  rw [Mem.get_set_ne _ _ _ _ (by omega), Mem.get_set_ne _ _ _ _ (by omega),
    Mem.get_set_ne _ _ _ _ (by omega), Mem.get_set_ne _ _ _ _ (by omega),
    Mem.get_set_ne _ _ _ _ (by omega), Mem.get_set_ne _ _ _ _ (by omega),
    Mem.get_set_ne _ _ _ _ (by omega), Mem.get_set_ne _ _ _ _ (by omega),
    Mem.get_set_ne _ _ _ _ (by omega)]

/-- When the free list is empty, Node returns the arena end. -/
theorem Node_nil_fst (ty tag : Int) (s : St) (hg : s.garbage = []) :
    (Node ty tag s).1 = s.len := by
  unfold Node; rw [hg]

/-- When the free list is empty, Node leaves it empty. -/
theorem Node_nil_garbage (ty tag : Int) (s : St) (hg : s.garbage = []) :
    (Node ty tag s).2.garbage = [] := by
  unfold Node; rw [hg]; exact hg

/-- When the free list is empty, Node grows the arena by one node record. -/
theorem Node_nil_len (ty tag : Int) (s : St) (hg : s.garbage = []) :
    (Node ty tag s).2.len = s.len + 9 := by
  unfold Node memSet; rw [hg]
  simp only []
  omega

set_option maxRecDepth 1000000

set_option maxHeartbeats 2000000


/-- Helper for C9: the nine cells written by Node, read back at the
    returned slot. -/
theorem mem_Node_cell (ty tag : Int) (s : St) (k : Nat) (hk : k < 9) :
    (Node ty tag s).2.mem.get ((Node ty tag s).1 + k) =
      if k = 0 then ty else if k = 7 then Int.ofNat (s.next_id + 1)
      else if k = 8 then tag else 0 := by
  rw [mem_Node]
  interval_cases k <;> simp [Mem.get_set]

/-- C9 amended: every call of the allocator increments the id counter,
    stamps the new slot with type, tag and the new id, initializes all
    three ports to the zero sentinel, and records the arena size as
    used_memory; with an empty free list it returns the arena end, and
    with a non-empty free list it pops the head and returns it unless that
    head is the falsy index 0, in which case the popped slot is discarded
    and a fresh slot at the arena end is returned instead. -/
theorem C9_allocator (ty tag : Int) (s : St) :
    (Node ty tag s).2.next_id = s.next_id + 1 ∧
    get_id (Node ty tag s).2 (Node ty tag s).1 = Int.ofNat (s.next_id + 1) ∧
    get_type (Node ty tag s).2 (Node ty tag s).1 = ty ∧
    get_tag (Node ty tag s).2 (Node ty tag s).1 = tag ∧
    (∀ p, p < 3 →
      get_target (Node ty tag s).2 (Node ty tag s).1 p = 0 ∧
      get_target_port (Node ty tag s).2 (Node ty tag s).1 p = 0) ∧
    (Node ty tag s).2.stats.used_memory = (Node ty tag s).2.len ∧
    (s.garbage = [] →
      (Node ty tag s).1 = s.len ∧ (Node ty tag s).2.garbage = []) ∧
    (∀ g gs, s.garbage = g :: gs →
      (Node ty tag s).2.garbage = gs ∧
      (g ≠ 0 → (Node ty tag s).1 = g) ∧
      (g = 0 → (Node ty tag s).1 = s.len)) := by
  refine ⟨next_id_Node ty tag s, ?_, ?_, ?_, ?_, used_memory_Node ty tag s,
    ?_, ?_⟩
  · unfold get_id
    rw [mem_Node_cell ty tag s 7 (by omega)]
    norm_num
  · unfold get_type
    have h := mem_Node_cell ty tag s 0 (by omega)
    rw [Nat.add_zero] at h
    rw [h]
    norm_num
  · unfold get_tag
    rw [mem_Node_cell ty tag s 8 (by omega)]
    norm_num
  · intro p hp
    unfold get_target get_target_port
    interval_cases p
    · constructor
      · rw [show (Node ty tag s).1 + 4 + 0 = (Node ty tag s).1 + 4 from
          by omega, mem_Node_cell ty tag s 4 (by omega)]
        norm_num
      · rw [show (Node ty tag s).1 + 1 + 0 = (Node ty tag s).1 + 1 from
          by omega, mem_Node_cell ty tag s 1 (by omega)]
        norm_num
    · constructor
      · rw [show (Node ty tag s).1 + 4 + 1 = (Node ty tag s).1 + 5 from
          by omega, mem_Node_cell ty tag s 5 (by omega)]
        norm_num
      · rw [show (Node ty tag s).1 + 1 + 1 = (Node ty tag s).1 + 2 from
          by omega, mem_Node_cell ty tag s 2 (by omega)]
        norm_num
    · constructor
      · rw [show (Node ty tag s).1 + 4 + 2 = (Node ty tag s).1 + 6 from
          by omega, mem_Node_cell ty tag s 6 (by omega)]
        norm_num
      · rw [show (Node ty tag s).1 + 1 + 2 = (Node ty tag s).1 + 3 from
          by omega, mem_Node_cell ty tag s 3 (by omega)]
        norm_num
  · intro hg
    exact ⟨Node_nil_fst ty tag s hg, Node_nil_garbage ty tag s hg⟩
  · intro g gs hg
    refine ⟨?_, ?_, ?_⟩
    · unfold Node
      rw [hg]
      rfl
    · intro hgz
      unfold Node
      rw [hg]
      dsimp only
      rw [if_neg hgz]
    · intro hgz
      unfold Node
      rw [hg, hgz]
      dsimp only
      rw [if_pos rfl]




/-- annihilate leaves the statistics unchanged. -/
theorem stats_annihilate (a b : Nat) (s : St) :
    (annihilate a b s).stats = s.stats := rfl

/-- commute leaves the application counter unchanged. -/
theorem apps_commute (d n : Nat) (s : St) :
    (commute d n s).stats.applications = s.stats.applications := by
  simp [commute, stats_link, apps_Node]

/-- One walker step raises the application counter exactly as much as it
    extends the ghost rule trace. -/
theorem apps_trace_step (r : RSt) :
    (reduce_step r).st.stats.applications + r.trace.length =
      (reduce_step r).trace.length + r.st.stats.applications := by
  unfold reduce_step
  cases hc : r.cur with
  | none =>
      cases hv : r.visit with
      | nil => dsimp only; omega
      | cons a rest => dsimp only; omega
  | some c =>
      rcases c with ⟨nt, np⟩
      dsimp only
      split
      · dsimp only
        omega
      · split
        · split
          · dsimp only
            split
            · rw [stats_annihilate]
              dsimp only [List.length_cons]
              omega
            · rw [apps_commute]
              dsimp only [List.length_cons]
              omega
          · dsimp only
            omega
        · dsimp only
          omega

/-- Along a whole run, the application counter grows exactly with the ghost
    rule trace. -/
theorem apps_trace_run (fuel : Nat) : ∀ r : RSt,
    (reduce_run fuel r).st.stats.applications + r.trace.length =
      (reduce_run fuel r).trace.length + r.st.stats.applications := by
  induction fuel with
  | zero =>
      intro r
      simp only [reduce_run]
      omega
  | succ f ih =>
      intro r
      unfold reduce_run
      by_cases hd : reduce_done r = true
      · rw [if_pos hd]
        omega
      · rw [if_neg hd]
        have h1 := apps_trace_step r
        have h2 := ih (reduce_step r)
        omega

/-- C7 amended: the statistics snapshot holds the three counters of the
    Stats record (iterations, applications, used_memory); net_reduce zeroes
    iterations and applications at the start of each invocation (its result
    is insensitive to the incoming values of those counters), and the
    single rewrite counter equals the length of the ghost rule trace, i.e.
    it counts annihilations and commutations combined, with no separate
    beta counter. -/
theorem C7_stats_shape (net fuel : Nat) (s : St) :
    net_reduce net fuel s =
      net_reduce net fuel
        { s with stats :=
            { s.stats with applications := 0, iterations := 0 } } ∧
    (net_reduce net fuel s).st.stats.applications =
      (net_reduce net fuel s).trace.length := by
  constructor
  · rfl
  · have h := apps_trace_run fuel (reduce_start net s)
    have h0 : (reduce_start net s).st.stats.applications = 0 := rfl
    have h1 : (reduce_start net s).trace.length = 0 := rfl
    unfold net_reduce
    omega



/-- dup_tags of the empty trace. -/
theorem dup_tags_nil : dup_tags [] = [] := rfl

/-- dup_tags distributes over trace concatenation. -/
theorem dup_tags_append (a b : List (Nat × Int × Int)) :
    dup_tags (a ++ b) = dup_tags a ++ dup_tags b := by
  simp [dup_tags]

/-- dup_tags collects the tag of a Duplicator allocation. -/
theorem dup_tags_cons_dup (i : Nat) (tg : Int) (l : List (Nat × Int × Int)) :
    dup_tags ((i, DUP, tg) :: l) = tg :: dup_tags l := by
  simp [dup_tags]

/-- dup_tags skips a non-Duplicator allocation. -/
theorem dup_tags_cons_other (i : Nat) (ty tg : Int)
    (l : List (Nat × Int × Int)) (h : ty ≠ DUP) :
    dup_tags ((i, ty, tg) :: l) = dup_tags l := by
  simp [dup_tags, h]

/-- Gluing two adjacent ranges of consecutive integers. -/
theorem range'_glue (a b c : Nat) (h1 : a ≤ b) (h2 : b ≤ c) :
    List.range' (a + 1) (b - a) ++ List.range' (b + 1) (c - b) =
      List.range' (a + 1) (c - a) := by
  have h := List.range'_append (a + 1) (b - a) (c - b) 1
  rw [show a + 1 + 1 * (b - a) = b + 1 from by omega] at h
  rw [show c - b + (b - a) = c - a from by omega] at h
  exact h

/-- The encoder's allocation discipline: the duplicator tag counter never
    decreases, the allocation trace only grows, and the Duplicator tags
    allocated while encoding a subterm are exactly the consecutive integers
    from ntag+1 up to the returned counter. -/
theorem encode_go_allocs (t : Term) : ∀ (scope : List Nat) (up : ELink)
    (s : St) (ntag : Nat),
    ntag ≤ (net_encode_go t scope up s ntag).2.2 ∧
    ∃ d, (net_encode_go t scope up s ntag).2.1.allocs = s.allocs ++ d ∧
      dup_tags d = (List.range' (ntag + 1)
        ((net_encode_go t scope up s ntag).2.2 - ntag)).map Int.ofNat := by
  induction t with
  | Var i =>
      intro scope up s ntag
      by_cases hera :
        get_type s (get_target s (scope.getD i.toNat 0) 1) = ERA
      · simp only [net_encode_go, if_pos hera]
        refine ⟨le_rfl, [], by simp, ?_⟩
        rw [dup_tags_nil, Nat.sub_self]
        simp
      · simp only [net_encode_go, if_neg hera]
        rcases hN : Node DUP (Int.ofNat (ntag + 1)) s with ⟨dup, s1⟩
        dsimp only
        have hA := allocs_Node DUP (Int.ofNat (ntag + 1)) s
        rw [hN] at hA
        dsimp only at hA
        refine ⟨by omega, [(dup, DUP, Int.ofNat (ntag + 1))], ?_, ?_⟩
        · simp only [allocs_half_link]
          exact hA
        · rw [dup_tags_cons_dup, dup_tags_nil,
            show ntag + 1 - ntag = 1 from by omega]
          simp [List.range']
  | Lam body ih =>
      intro scope up s ntag
      simp only [net_encode_go]
      rcases hN1 : Node ERA (-1) s with ⟨del, s1⟩
      dsimp only
      rcases hN2 : Node LAM 0 s1 with ⟨lam, s2⟩
      dsimp only
      rcases hB : net_encode_go body (lam :: scope) ⟨lam, 2⟩
          (link (link (half_link s2 lam 0 up.target up.port) lam 1 del 0)
            del 1 del 2) ntag with ⟨bod, s6, ntag1⟩
      dsimp only
      have hIH := ih (lam :: scope) ⟨lam, 2⟩
        (link (link (half_link s2 lam 0 up.target up.port) lam 1 del 0)
          del 1 del 2) ntag
      rw [hB] at hIH
      dsimp only at hIH
      obtain ⟨hle, d, hd, hdt⟩ := hIH
      have hA1 := allocs_Node ERA (-1) s
      rw [hN1] at hA1
      dsimp only at hA1
      have hA2 := allocs_Node LAM 0 s1
      rw [hN2] at hA2
      dsimp only at hA2
      refine ⟨hle, (del, ERA, -1) :: (lam, LAM, 0) :: d, ?_, ?_⟩
      · simp only [allocs_half_link, allocs_link] at hd ⊢
        rw [hd, hA2, hA1]
        simp
      · rw [dup_tags_cons_other _ _ _ _ (by norm_num [ERA, DUP]),
          dup_tags_cons_other _ _ _ _ (by norm_num [LAM, DUP])]
        exact hdt
  | App l r ihl ihr =>
      intro scope up s ntag
      simp only [net_encode_go]
      rcases hN : Node APP 0 s with ⟨app, s1⟩
      dsimp only
      rcases hL : net_encode_go l scope ⟨app, 0⟩
          (half_link s1 app 2 up.target up.port) ntag with ⟨left, s3, ntag1⟩
      dsimp only
      rcases hR : net_encode_go r scope ⟨app, 1⟩
          (half_link s3 app 0 left.target left.port) ntag1
        with ⟨right, s5, ntag2⟩
      dsimp only
      have hIHl := ihl scope ⟨app, 0⟩
        (half_link s1 app 2 up.target up.port) ntag
      rw [hL] at hIHl
      dsimp only at hIHl
      have hIHr := ihr scope ⟨app, 1⟩
        (half_link s3 app 0 left.target left.port) ntag1
      rw [hR] at hIHr
      dsimp only at hIHr
      obtain ⟨hle1, d1, hd1, hdt1⟩ := hIHl
      obtain ⟨hle2, d2, hd2, hdt2⟩ := hIHr
      have hA := allocs_Node APP 0 s
      rw [hN] at hA
      dsimp only at hA
      refine ⟨by omega, (app, APP, 0) :: (d1 ++ d2), ?_, ?_⟩
      · simp only [allocs_half_link] at hd1 hd2 ⊢
        rw [hd2, hd1, hA]
        simp
      · rw [dup_tags_cons_other _ _ _ _ (by norm_num [APP, DUP]),
          dup_tags_append, hdt1, hdt2, ← List.map_append,
          range'_glue ntag ntag1 ntag2 hle1 hle2]

/-- Node pops at most the head of the free list. -/
theorem garbage_Node_tail (ty tag : Int) (s : St) :
    (Node ty tag s).2.garbage = s.garbage.tail := by
  unfold Node
  cases h : s.garbage
  · dsimp only
    exact h
  · rfl

/-- Reading a target through link, for aligned nodes. -/
theorem get_target_link2 (s : St) (a ap b bp m q : Nat)
    (ha : 9 ∣ a) (hb : 9 ∣ b) (hm : 9 ∣ m)
    (hap : ap < 3) (hbp : bp < 3) (hq : q < 3) :
    get_target (link s a ap b bp) m q =
      if b = m ∧ bp = q then a
      else if a = m ∧ ap = q then b
      else get_target s m q := by
  unfold link
  rw [get_target_half_link _ _ _ _ _ _ _ hb hm hbp hq,
    get_target_half_link _ _ _ _ _ _ _ ha hm hap hq]

/-- Reading a target port through link, for aligned nodes. -/
theorem get_target_port_link2 (s : St) (a ap b bp m q : Nat)
    (ha : 9 ∣ a) (hb : 9 ∣ b) (hm : 9 ∣ m)
    (hap : ap < 3) (hbp : bp < 3) (hq : q < 3) :
    get_target_port (link s a ap b bp) m q =
      if b = m ∧ bp = q then ap
      else if a = m ∧ ap = q then bp
      else get_target_port s m q := by
  unfold link
  rw [get_target_port_half_link _ _ _ _ _ _ _ hb hm hbp hq,
    get_target_port_half_link _ _ _ _ _ _ _ ha hm hap hq]

/-- link never changes a node's type cell, for aligned nodes. -/
theorem get_type_link2 (s : St) (a ap b bp m : Nat)
    (ha : 9 ∣ a) (hb : 9 ∣ b) (hm : 9 ∣ m) (hap : ap < 3) (hbp : bp < 3) :
    get_type (link s a ap b bp) m = get_type s m := by
  unfold link
  rw [get_type_half_link _ _ _ _ _ _ hb hm hbp,
    get_type_half_link _ _ _ _ _ _ ha hm hap]

/-- link never changes a node's tag cell, for aligned nodes. -/
theorem get_tag_link2 (s : St) (a ap b bp m : Nat)
    (ha : 9 ∣ a) (hb : 9 ∣ b) (hm : 9 ∣ m) (hap : ap < 3) (hbp : bp < 3) :
    get_tag (link s a ap b bp) m = get_tag s m := by
  unfold link
  rw [get_tag_half_link _ _ _ _ _ _ hb hm hbp,
    get_tag_half_link _ _ _ _ _ _ ha hm hap]

/-- Reading a node's type through Node, for aligned slots: the fresh slot
    carries the allocated type, every other slot is untouched. -/
theorem get_type_Node2 (ty tag : Int) (s : St) (m : Nat)
    (hn : 9 ∣ (Node ty tag s).1) (hm : 9 ∣ m) :
    get_type (Node ty tag s).2 m =
      if (Node ty tag s).1 = m then ty else get_type s m := by
  by_cases h : (Node ty tag s).1 = m
  · rw [if_pos h]
    subst h
    unfold get_type
    have hc := mem_Node_cell ty tag s 0 (by omega)
    rw [Nat.add_zero] at hc
    rw [hc]
    norm_num
  · rw [if_neg h]
    unfold get_type
    exact mem_Node_other ty tag s m (by omega)

/-- Reading a node's tag through Node, for aligned slots. -/
theorem get_tag_Node2 (ty tag : Int) (s : St) (m : Nat)
    (hn : 9 ∣ (Node ty tag s).1) (hm : 9 ∣ m) :
    get_tag (Node ty tag s).2 m =
      if (Node ty tag s).1 = m then tag else get_tag s m := by
  by_cases h : (Node ty tag s).1 = m
  · rw [if_pos h]
    subst h
    unfold get_tag
    rw [mem_Node_cell ty tag s 8 (by omega)]
    norm_num
  · rw [if_neg h]
    unfold get_tag
    exact mem_Node_other ty tag s (m + 8) (by omega)

/-- Reading a target through Node, for aligned slots: the fresh slot's
    ports are zeroed, every other slot is untouched. -/
theorem get_target_Node2 (ty tag : Int) (s : St) (m q : Nat)
    (hn : 9 ∣ (Node ty tag s).1) (hm : 9 ∣ m) (hq : q < 3) :
    get_target (Node ty tag s).2 m q =
      if (Node ty tag s).1 = m then 0 else get_target s m q := by
  by_cases h : (Node ty tag s).1 = m
  · rw [if_pos h]
    subst h
    unfold get_target
    interval_cases q
    · rw [show (Node ty tag s).1 + 4 + 0 = (Node ty tag s).1 + 4 from
        by omega, mem_Node_cell ty tag s 4 (by omega)]
      norm_num
    · rw [show (Node ty tag s).1 + 4 + 1 = (Node ty tag s).1 + 5 from
        by omega, mem_Node_cell ty tag s 5 (by omega)]
      norm_num
    · rw [show (Node ty tag s).1 + 4 + 2 = (Node ty tag s).1 + 6 from
        by omega, mem_Node_cell ty tag s 6 (by omega)]
      norm_num
  · rw [if_neg h]
    unfold get_target
    rw [mem_Node_other ty tag s (m + 4 + q) (by omega)]

/-- Reading a target port through Node, for aligned slots. -/
theorem get_target_port_Node2 (ty tag : Int) (s : St) (m q : Nat)
    (hn : 9 ∣ (Node ty tag s).1) (hm : 9 ∣ m) (hq : q < 3) :
    get_target_port (Node ty tag s).2 m q =
      if (Node ty tag s).1 = m then 0 else get_target_port s m q := by
  by_cases h : (Node ty tag s).1 = m
  · rw [if_pos h]
    subst h
    unfold get_target_port
    interval_cases q
    · rw [show (Node ty tag s).1 + 1 + 0 = (Node ty tag s).1 + 1 from
        by omega, mem_Node_cell ty tag s 1 (by omega)]
      norm_num
    · rw [show (Node ty tag s).1 + 1 + 1 = (Node ty tag s).1 + 2 from
        by omega, mem_Node_cell ty tag s 2 (by omega)]
      norm_num
    · rw [show (Node ty tag s).1 + 1 + 2 = (Node ty tag s).1 + 3 from
        by omega, mem_Node_cell ty tag s 3 (by omega)]
      norm_num
  · rw [if_neg h]
    unfold get_target_port
    rw [mem_Node_other ty tag s (m + 1 + q) (by omega)]



/-- C5: the encoder Variable case.  On a first reference (the binder
    Lambda port 1 still points at an Eraser) port 1 is rewired directly
    to the up-link with no allocation.  On every later reference exactly
    one Duplicator is allocated, with tag next_tag+1, and spliced cell by
    cell between the Lambda port 1, the previous occupant of that port
    and the new up-link -- proved for every state, scope and up-link under
    the arena-shape side conditions (alignment and distinctness of the
    three nodes involved).  Over a whole net_encode run, the tags of all
    Duplicators it allocates are pairwise distinct. -/
theorem C5_encoder_variable :
    (∀ (s : St) (scope : List Nat) (up : ELink) (i : Int) (ntag : Nat),
      9 ∣ scope.getD i.toNat 0 →
      scope.getD i.toNat 0 + 9 ≤ s.len →
      get_type s (get_target s (scope.getD i.toNat 0) 1) = ERA →
      (net_encode_go (Term.Var i) scope up s ntag).1 =
        ⟨scope.getD i.toNat 0, 1⟩ ∧
      (net_encode_go (Term.Var i) scope up s ntag).2.2 = ntag ∧
      (net_encode_go (Term.Var i) scope up s ntag).2.1.allocs = s.allocs ∧
      (net_encode_go (Term.Var i) scope up s ntag).2.1.next_id = s.next_id ∧
      (net_encode_go (Term.Var i) scope up s ntag).2.1.len = s.len ∧
      get_target (net_encode_go (Term.Var i) scope up s ntag).2.1
        (scope.getD i.toNat 0) 1 = up.target ∧
      get_target_port (net_encode_go (Term.Var i) scope up s ntag).2.1
        (scope.getD i.toNat 0) 1 = up.port) ∧
    (∀ (s : St) (scope : List Nat) (up : ELink) (i : Int)
      (ntag lam ot op dup : Nat),
      lam = scope.getD i.toNat 0 →
      ot = get_target s lam 1 →
      op = get_target_port s lam 1 →
      dup = (Node DUP (Int.ofNat (ntag + 1)) s).1 →
      get_type s ot ≠ ERA →
      9 ∣ lam → 9 ∣ ot → 9 ∣ dup →
      dup ≠ lam → dup ≠ ot →
      op < 3 →
      ¬(ot = lam ∧ op = 1) →
      (net_encode_go (Term.Var i) scope up s ntag).1 = ⟨dup, 1⟩ ∧
      (net_encode_go (Term.Var i) scope up s ntag).2.2 = ntag + 1 ∧
      (net_encode_go (Term.Var i) scope up s ntag).2.1.allocs =
        s.allocs ++ [(dup, DUP, Int.ofNat (ntag + 1))] ∧
      (net_encode_go (Term.Var i) scope up s ntag).2.1.next_id =
        s.next_id + 1 ∧
      get_type (net_encode_go (Term.Var i) scope up s ntag).2.1 dup = DUP ∧
      get_tag (net_encode_go (Term.Var i) scope up s ntag).2.1 dup =
        Int.ofNat (ntag + 1) ∧
      get_target (net_encode_go (Term.Var i) scope up s ntag).2.1
        dup 0 = lam ∧
      get_target_port (net_encode_go (Term.Var i) scope up s ntag).2.1
        dup 0 = 1 ∧
      get_target (net_encode_go (Term.Var i) scope up s ntag).2.1 dup 1 =
        up.target ∧
      get_target_port (net_encode_go (Term.Var i) scope up s ntag).2.1
        dup 1 = up.port ∧
      get_target (net_encode_go (Term.Var i) scope up s ntag).2.1
        dup 2 = ot ∧
      get_target_port (net_encode_go (Term.Var i) scope up s ntag).2.1
        dup 2 = op ∧
      get_target (net_encode_go (Term.Var i) scope up s ntag).2.1
        ot op = dup ∧
      get_target_port (net_encode_go (Term.Var i) scope up s ntag).2.1
        ot op = 2 ∧
      get_target (net_encode_go (Term.Var i) scope up s ntag).2.1
        lam 1 = dup ∧
      get_target_port (net_encode_go (Term.Var i) scope up s ntag).2.1
        lam 1 = 0) ∧
    (∀ t : Term, (dup_tags (net_encode t clean).2.allocs).Nodup) := by
  refine ⟨?_, ?_, ?_⟩
  · intro s scope up i ntag h9 hlen hera
    unfold net_encode_go
    dsimp only
    rw [if_pos hera]
    refine ⟨rfl, rfl, by simp, rfl, ?_, ?_, ?_⟩
    · rw [len_half_link]
      omega
    · rw [get_target_half_link _ _ _ _ _ _ _ h9 h9 (by omega) (by omega),
        if_pos (show scope.getD i.toNat 0 = scope.getD i.toNat 0 ∧
          (1 : Nat) = 1 from ⟨rfl, rfl⟩)]
    · rw [get_target_port_half_link _ _ _ _ _ _ _ h9 h9 (by omega) (by omega),
        if_pos (show scope.getD i.toNat 0 = scope.getD i.toNat 0 ∧
          (1 : Nat) = 1 from ⟨rfl, rfl⟩)]
  · intro s scope up i ntag lam ot op dup hlam hot hop hdup hera h9l h9o h9d
      hdl hdo hop3 hne
    have hera2 : ¬ (get_type s (get_target s (scope.getD i.toNat 0) 1) =
        ERA) := by
      rw [← hlam, ← hot]
      exact hera
    have h9d2 : 9 ∣ (Node DUP (Int.ofNat (ntag + 1)) s).1 := by
      rw [← hdup]; exact h9d
    have hneq : (Node DUP (Int.ofNat (ntag + 1)) s).1 ≠ lam := by
      rw [← hdup]; exact hdl
    have hTl0 := get_target_Node2 DUP (Int.ofNat (ntag + 1)) s lam 1
      h9d2 h9l (by omega)
    rw [if_neg hneq, ← hot] at hTl0
    have hPl0 := get_target_port_Node2 DUP (Int.ofNat (ntag + 1)) s lam 1
      h9d2 h9l (by omega)
    rw [if_neg hneq, ← hop] at hPl0
    have hAl0 := allocs_Node DUP (Int.ofNat (ntag + 1)) s
    have hNi0 := next_id_Node DUP (Int.ofNat (ntag + 1)) s
    have hTy0 := get_type_Node2 DUP (Int.ofNat (ntag + 1)) s dup h9d2 h9d
    rw [if_pos hdup.symm] at hTy0
    have hTag0 := get_tag_Node2 DUP (Int.ofNat (ntag + 1)) s dup h9d2 h9d
    rw [if_pos hdup.symm] at hTag0
    unfold net_encode_go
    dsimp only
    rw [if_neg hera2, ← hlam]
    rcases hN : Node DUP (Int.ofNat (ntag + 1)) s with ⟨dup0, s1⟩
    rw [hN] at hdup hTl0 hPl0 hAl0 hNi0 hTy0 hTag0
    dsimp only at hdup hTl0 hPl0 hAl0 hNi0 hTy0 hTag0 ⊢
    subst hdup
    have e1 : get_target (half_link (half_link s1 dup 0 lam 1) dup 1
        up.target up.port) lam 1 = ot := by
      rw [get_target_half_link _ _ _ _ _ _ _ h9d h9l (by omega) (by omega),
        if_neg (by omega),
        get_target_half_link _ _ _ _ _ _ _ h9d h9l (by omega) (by omega),
        if_neg (by omega)]
      exact hTl0
    have e1p : get_target_port (half_link (half_link s1 dup 0 lam 1) dup 1
        up.target up.port) lam 1 = op := by
      rw [get_target_port_half_link _ _ _ _ _ _ _ h9d h9l (by omega)
          (by omega), if_neg (by omega),
        get_target_port_half_link _ _ _ _ _ _ _ h9d h9l (by omega) (by omega),
        if_neg (by omega)]
      exact hPl0
    rw [e1, e1p]
    have e2 : get_target (half_link (half_link (half_link s1 dup 0 lam 1)
        dup 1 up.target up.port) dup 2 ot op) lam 1 = ot := by
      rw [get_target_half_link _ _ _ _ _ _ _ h9d h9l (by omega) (by omega),
        if_neg (by omega)]
      exact e1
    have e2p : get_target_port (half_link (half_link (half_link s1 dup 0
        lam 1) dup 1 up.target up.port) dup 2 ot op) lam 1 = op := by
      rw [get_target_port_half_link _ _ _ _ _ _ _ h9d h9l (by omega)
          (by omega), if_neg (by omega)]
      exact e1p
    rw [e2, e2p]
    refine ⟨rfl, rfl, ?_, ?_, ?_, ?_, ?_, ?_, ?_, ?_, ?_, ?_, ?_, ?_, ?_, ?_⟩
    · simp only [allocs_half_link]
      exact hAl0
    · simp only [next_id_half_link]
      exact hNi0
    · rw [get_type_half_link _ _ _ _ _ _ h9l h9d (by omega),
        get_type_half_link _ _ _ _ _ _ h9o h9d hop3,
        get_type_half_link _ _ _ _ _ _ h9d h9d (by omega),
        get_type_half_link _ _ _ _ _ _ h9d h9d (by omega),
        get_type_half_link _ _ _ _ _ _ h9d h9d (by omega)]
      exact hTy0
    · rw [get_tag_half_link _ _ _ _ _ _ h9l h9d (by omega),
        get_tag_half_link _ _ _ _ _ _ h9o h9d hop3,
        get_tag_half_link _ _ _ _ _ _ h9d h9d (by omega),
        get_tag_half_link _ _ _ _ _ _ h9d h9d (by omega),
        get_tag_half_link _ _ _ _ _ _ h9d h9d (by omega)]
      exact hTag0
    · rw [get_target_half_link _ _ _ _ _ _ _ h9l h9d (by omega) (by omega),
        if_neg (by omega),
        get_target_half_link _ _ _ _ _ _ _ h9o h9d hop3 (by omega),
        if_neg (by omega),
        get_target_half_link _ _ _ _ _ _ _ h9d h9d (by omega) (by omega),
        if_neg (by omega),
        get_target_half_link _ _ _ _ _ _ _ h9d h9d (by omega) (by omega),
        if_neg (by omega),
        get_target_half_link _ _ _ _ _ _ _ h9d h9d (by omega) (by omega),
        if_pos (show dup = dup ∧ (0 : Nat) = 0 from ⟨rfl, rfl⟩)]
    · rw [get_target_port_half_link _ _ _ _ _ _ _ h9l h9d (by omega)
          (by omega), if_neg (by omega),
        get_target_port_half_link _ _ _ _ _ _ _ h9o h9d hop3 (by omega),
        if_neg (by omega),
        get_target_port_half_link _ _ _ _ _ _ _ h9d h9d (by omega) (by omega),
        if_neg (by omega),
        get_target_port_half_link _ _ _ _ _ _ _ h9d h9d (by omega) (by omega),
        if_neg (by omega),
        get_target_port_half_link _ _ _ _ _ _ _ h9d h9d (by omega) (by omega),
        if_pos (show dup = dup ∧ (0 : Nat) = 0 from ⟨rfl, rfl⟩)]
    · rw [get_target_half_link _ _ _ _ _ _ _ h9l h9d (by omega) (by omega),
        if_neg (by omega),
        get_target_half_link _ _ _ _ _ _ _ h9o h9d hop3 (by omega),
        if_neg (by omega),
        get_target_half_link _ _ _ _ _ _ _ h9d h9d (by omega) (by omega),
        if_neg (by omega),
        get_target_half_link _ _ _ _ _ _ _ h9d h9d (by omega) (by omega),
        if_pos (show dup = dup ∧ (1 : Nat) = 1 from ⟨rfl, rfl⟩)]
    · rw [get_target_port_half_link _ _ _ _ _ _ _ h9l h9d (by omega)
          (by omega), if_neg (by omega),
        get_target_port_half_link _ _ _ _ _ _ _ h9o h9d hop3 (by omega),
        if_neg (by omega),
        get_target_port_half_link _ _ _ _ _ _ _ h9d h9d (by omega) (by omega),
        if_neg (by omega),
        get_target_port_half_link _ _ _ _ _ _ _ h9d h9d (by omega) (by omega),
        if_pos (show dup = dup ∧ (1 : Nat) = 1 from ⟨rfl, rfl⟩)]
    · rw [get_target_half_link _ _ _ _ _ _ _ h9l h9d (by omega) (by omega),
        if_neg (by omega),
        get_target_half_link _ _ _ _ _ _ _ h9o h9d hop3 (by omega),
        if_neg (by omega),
        get_target_half_link _ _ _ _ _ _ _ h9d h9d (by omega) (by omega),
        if_pos (show dup = dup ∧ (2 : Nat) = 2 from ⟨rfl, rfl⟩)]
    · rw [get_target_port_half_link _ _ _ _ _ _ _ h9l h9d (by omega)
          (by omega), if_neg (by omega),
        get_target_port_half_link _ _ _ _ _ _ _ h9o h9d hop3 (by omega),
        if_neg (by omega),
        get_target_port_half_link _ _ _ _ _ _ _ h9d h9d (by omega) (by omega),
        if_pos (show dup = dup ∧ (2 : Nat) = 2 from ⟨rfl, rfl⟩)]
    · rw [get_target_half_link _ _ _ _ _ _ _ h9l h9o (by omega) hop3,
        if_neg (by omega),
        get_target_half_link _ _ _ _ _ _ _ h9o h9o hop3 hop3,
        if_pos (show ot = ot ∧ op = op from ⟨rfl, rfl⟩)]
    · rw [get_target_port_half_link _ _ _ _ _ _ _ h9l h9o (by omega) hop3,
        if_neg (by omega),
        get_target_port_half_link _ _ _ _ _ _ _ h9o h9o hop3 hop3,
        if_pos (show ot = ot ∧ op = op from ⟨rfl, rfl⟩)]
    · rw [get_target_half_link _ _ _ _ _ _ _ h9l h9l (by omega) (by omega),
        if_pos (show lam = lam ∧ (1 : Nat) = 1 from ⟨rfl, rfl⟩)]
    · rw [get_target_port_half_link _ _ _ _ _ _ _ h9l h9l (by omega)
          (by omega),
        if_pos (show lam = lam ∧ (1 : Nat) = 1 from ⟨rfl, rfl⟩)]
  · intro t
    unfold net_encode
    rcases hN : Node ROT (-1) clean with ⟨net_root, s1⟩
    dsimp only
    rcases hE : net_encode_go t [] ⟨net_root, 0⟩ s1 0 with ⟨el, s2, ntagf⟩
    dsimp only
    have hG := encode_go_allocs t [] ⟨net_root, 0⟩ s1 0
    rw [hE] at hG
    dsimp only at hG
    obtain ⟨hle, d, hd, hdt⟩ := hG
    have hA := allocs_Node ROT (-1) clean
    rw [hN] at hA
    dsimp only at hA
    simp only [allocs_half_link]
    rw [hd, hA]
    have hclean : clean.allocs = [] := rfl
    rw [hclean]
    simp only [List.nil_append]
    rw [dup_tags_append,
      dup_tags_cons_other _ _ _ _ (by norm_num [ROT, DUP]), dup_tags_nil,
      List.nil_append, hdt]
    exact ((List.nodup_range' _ _).map fun a b h => Int.ofNat_inj.mp h)




/-- C6 amended: for every state (whatever the free list holds) and every
    aligned, pairwise-distinct square of nodes -- the active pair dup, nod,
    the two fresh copies db, nb and the four non-principal neighbors --
    commute allocates exactly two fresh nodes, each copying one original
    kind and tag (witnessed by the allocation trace, the copied cells and
    the id counter), and rewires so that each original two non-principal
    neighbors face one original and one copy while the two copies face
    each other on their remaining port; but the two original nodes are NOT
    pushed to the free list: the free list is left exactly as the two
    allocation pops left it, the originals being rewired in place as part
    of the commuted square. -/
theorem C6_commute (s : St)
    (dup nod db nb a1 a1p a2 a2p b1 b1p b2 b2p : Nat)
    (hdb : db = (Node (get_type s dup) (get_tag s dup) s).1)
    (hnb : nb = (Node (get_type s nod) (get_tag s nod)
      (Node (get_type s dup) (get_tag s dup) s).2).1)
    (ha1 : a1 = get_target s dup 1) (ha1p : a1p = get_target_port s dup 1)
    (ha2 : a2 = get_target s dup 2) (ha2p : a2p = get_target_port s dup 2)
    (hb1 : b1 = get_target s nod 1) (hb1p : b1p = get_target_port s nod 1)
    (hb2 : b2 = get_target s nod 2) (hb2p : b2p = get_target_port s nod 2)
    (h9d : 9 ∣ dup) (h9n : 9 ∣ nod) (h9db : 9 ∣ db) (h9nb : 9 ∣ nb)
    (h9a1 : 9 ∣ a1) (h9a2 : 9 ∣ a2) (h9b1 : 9 ∣ b1) (h9b2 : 9 ∣ b2)
    (hp1 : a1p < 3) (hp2 : a2p < 3) (hq1 : b1p < 3) (hq2 : b2p < 3)
    (ne1 : dup ≠ nod) (ne2 : dup ≠ db) (ne3 : dup ≠ nb)
    (ne4 : dup ≠ a1) (ne5 : dup ≠ a2) (ne6 : dup ≠ b1) (ne7 : dup ≠ b2)
    (ne8 : nod ≠ db) (ne9 : nod ≠ nb) (ne10 : nod ≠ a1)
    (ne11 : nod ≠ a2) (ne12 : nod ≠ b1) (ne13 : nod ≠ b2)
    (ne14 : db ≠ nb) (ne15 : db ≠ a1) (ne16 : db ≠ a2)
    (ne17 : db ≠ b1) (ne18 : db ≠ b2)
    (ne19 : nb ≠ a1) (ne20 : nb ≠ a2) (ne21 : nb ≠ b1) (ne22 : nb ≠ b2)
    (ne23 : a1 ≠ a2) (ne24 : a1 ≠ b1) (ne25 : a1 ≠ b2)
    (ne26 : a2 ≠ b1) (ne27 : a2 ≠ b2) (ne28 : b1 ≠ b2) :
    (commute dup nod s).garbage = s.garbage.tail.tail ∧
    (commute dup nod s).next_id = s.next_id + 2 ∧
    (commute dup nod s).allocs = s.allocs ++
      [(db, get_type s dup, get_tag s dup), (nb, get_type s nod, get_tag s nod)] ∧
    get_type (commute dup nod s) db = get_type s dup ∧
    get_tag (commute dup nod s) db = get_tag s dup ∧
    get_type (commute dup nod s) nb = get_type s nod ∧
    get_tag (commute dup nod s) nb = get_tag s nod ∧
    get_target (commute dup nod s) a1 a1p = nod ∧
    get_target_port (commute dup nod s) a1 a1p = 0 ∧
    get_target (commute dup nod s) nod 0 = a1 ∧
    get_target_port (commute dup nod s) nod 0 = a1p ∧
    get_target (commute dup nod s) b1 b1p = dup ∧
    get_target_port (commute dup nod s) b1 b1p = 0 ∧
    get_target (commute dup nod s) dup 0 = b1 ∧
    get_target_port (commute dup nod s) dup 0 = b1p ∧
    get_target (commute dup nod s) nod 1 = dup ∧
    get_target_port (commute dup nod s) nod 1 = 1 ∧
    get_target (commute dup nod s) dup 1 = nod ∧
    get_target_port (commute dup nod s) dup 1 = 1 ∧
    get_target (commute dup nod s) a2 a2p = nb ∧
    get_target_port (commute dup nod s) a2 a2p = 0 ∧
    get_target (commute dup nod s) nb 0 = a2 ∧
    get_target_port (commute dup nod s) nb 0 = a2p ∧
    get_target (commute dup nod s) b2 b2p = db ∧
    get_target_port (commute dup nod s) b2 b2p = 0 ∧
    get_target (commute dup nod s) db 0 = b2 ∧
    get_target_port (commute dup nod s) db 0 = b2p ∧
    get_target (commute dup nod s) dup 2 = nb ∧
    get_target_port (commute dup nod s) dup 2 = 1 ∧
    get_target (commute dup nod s) nb 1 = dup ∧
    get_target_port (commute dup nod s) nb 1 = 2 ∧
    get_target (commute dup nod s) nod 2 = db ∧
    get_target_port (commute dup nod s) nod 2 = 1 ∧
    get_target (commute dup nod s) db 1 = nod ∧
    get_target_port (commute dup nod s) db 1 = 2 ∧
    get_target (commute dup nod s) nb 2 = db ∧
    get_target_port (commute dup nod s) nb 2 = 2 ∧
    get_target (commute dup nod s) db 2 = nb ∧
    get_target_port (commute dup nod s) db 2 = 2 := by
  have h9db2 : 9 ∣ (Node (get_type s dup) (get_tag s dup) s).1 := by
    rw [← hdb]; exact h9db
  have h9nb2 : 9 ∣ (Node (get_type s nod) (get_tag s nod)
      (Node (get_type s dup) (get_tag s dup) s).2).1 := by
    rw [← hnb]; exact h9nb
  have hxn : (Node (get_type s dup) (get_tag s dup) s).1 ≠ nod := by
    rw [← hdb]; exact ne8.symm
  have hxd : (Node (get_type s dup) (get_tag s dup) s).1 ≠ dup := by
    rw [← hdb]; exact ne2.symm
  have hxdb : (Node (get_type s dup) (get_tag s dup) s).1 = db := hdb.symm
  have hyd : (Node (get_type s nod) (get_tag s nod)
      (Node (get_type s dup) (get_tag s dup) s).2).1 ≠ dup := by
    rw [← hnb]; exact ne3.symm
  have hyn : (Node (get_type s nod) (get_tag s nod)
      (Node (get_type s dup) (get_tag s dup) s).2).1 ≠ nod := by
    rw [← hnb]; exact ne9.symm
  have hydb : (Node (get_type s nod) (get_tag s nod)
      (Node (get_type s dup) (get_tag s dup) s).2).1 ≠ db := by
    rw [← hnb]; exact ne14.symm
  have hynb : (Node (get_type s nod) (get_tag s nod)
      (Node (get_type s dup) (get_tag s dup) s).2).1 = nb := hnb.symm
  have htyn : get_type (Node (get_type s dup) (get_tag s dup) s).2 nod = get_type s nod := by
    rw [get_type_Node2 _ _ _ _ h9db2 h9n, if_neg hxn]
  have htgn : get_tag (Node (get_type s dup) (get_tag s dup) s).2 nod = get_tag s nod := by
    rw [get_tag_Node2 _ _ _ _ h9db2 h9n, if_neg hxn]
  have f1 : get_type (Node (get_type s nod) (get_tag s nod)
      (Node (get_type s dup) (get_tag s dup) s).2).2 db = get_type s dup := by
    rw [get_type_Node2 _ _ _ _ h9nb2 h9db, if_neg hydb,
      get_type_Node2 _ _ _ _ h9db2 h9db, if_pos hxdb]
  have f2 : get_tag (Node (get_type s nod) (get_tag s nod)
      (Node (get_type s dup) (get_tag s dup) s).2).2 db = get_tag s dup := by
    rw [get_tag_Node2 _ _ _ _ h9nb2 h9db, if_neg hydb,
      get_tag_Node2 _ _ _ _ h9db2 h9db, if_pos hxdb]
  have f3 : get_type (Node (get_type s nod) (get_tag s nod)
      (Node (get_type s dup) (get_tag s dup) s).2).2 nb = get_type s nod := by
    rw [get_type_Node2 _ _ _ _ h9nb2 h9nb, if_pos hynb]
  have f4 : get_tag (Node (get_type s nod) (get_tag s nod)
      (Node (get_type s dup) (get_tag s dup) s).2).2 nb = get_tag s nod := by
    rw [get_tag_Node2 _ _ _ _ h9nb2 h9nb, if_pos hynb]
  have g1 : get_target (Node (get_type s nod) (get_tag s nod)
      (Node (get_type s dup) (get_tag s dup) s).2).2 dup 1 = a1 := by
    rw [get_target_Node2 _ _ _ _ _ h9nb2 h9d (by decide), if_neg hyd,
      get_target_Node2 _ _ _ _ _ h9db2 h9d (by decide), if_neg hxd]
    exact ha1.symm
  have g1p : get_target_port (Node (get_type s nod) (get_tag s nod)
      (Node (get_type s dup) (get_tag s dup) s).2).2 dup 1 = a1p := by
    rw [get_target_port_Node2 _ _ _ _ _ h9nb2 h9d (by decide), if_neg hyd,
      get_target_port_Node2 _ _ _ _ _ h9db2 h9d (by decide), if_neg hxd]
    exact ha1p.symm
  have g2 : get_target (Node (get_type s nod) (get_tag s nod)
      (Node (get_type s dup) (get_tag s dup) s).2).2 dup 2 = a2 := by
    rw [get_target_Node2 _ _ _ _ _ h9nb2 h9d (by decide), if_neg hyd,
      get_target_Node2 _ _ _ _ _ h9db2 h9d (by decide), if_neg hxd]
    exact ha2.symm
  have g2p : get_target_port (Node (get_type s nod) (get_tag s nod)
      (Node (get_type s dup) (get_tag s dup) s).2).2 dup 2 = a2p := by
    rw [get_target_port_Node2 _ _ _ _ _ h9nb2 h9d (by decide), if_neg hyd,
      get_target_port_Node2 _ _ _ _ _ h9db2 h9d (by decide), if_neg hxd]
    exact ha2p.symm
  have g3 : get_target (Node (get_type s nod) (get_tag s nod)
      (Node (get_type s dup) (get_tag s dup) s).2).2 nod 1 = b1 := by
    rw [get_target_Node2 _ _ _ _ _ h9nb2 h9n (by decide), if_neg hyn,
      get_target_Node2 _ _ _ _ _ h9db2 h9n (by decide), if_neg hxn]
    exact hb1.symm
  have g3p : get_target_port (Node (get_type s nod) (get_tag s nod)
      (Node (get_type s dup) (get_tag s dup) s).2).2 nod 1 = b1p := by
    rw [get_target_port_Node2 _ _ _ _ _ h9nb2 h9n (by decide), if_neg hyn,
      get_target_port_Node2 _ _ _ _ _ h9db2 h9n (by decide), if_neg hxn]
    exact hb1p.symm
  have g4 : get_target (Node (get_type s nod) (get_tag s nod)
      (Node (get_type s dup) (get_tag s dup) s).2).2 nod 2 = b2 := by
    rw [get_target_Node2 _ _ _ _ _ h9nb2 h9n (by decide), if_neg hyn,
      get_target_Node2 _ _ _ _ _ h9db2 h9n (by decide), if_neg hxn]
    exact hb2.symm
  have g4p : get_target_port (Node (get_type s nod) (get_tag s nod)
      (Node (get_type s dup) (get_tag s dup) s).2).2 nod 2 = b2p := by
    rw [get_target_port_Node2 _ _ _ _ _ h9nb2 h9n (by decide), if_neg hyn,
      get_target_port_Node2 _ _ _ _ _ h9db2 h9n (by decide), if_neg hxn]
    exact hb2p.symm
  have hal : ((Node (get_type s nod) (get_tag s nod)
      (Node (get_type s dup) (get_tag s dup) s).2).2).allocs = s.allocs ++
      [(db, get_type s dup, get_tag s dup),
       (nb, get_type s nod, get_tag s nod)] := by
    rw [allocs_Node, allocs_Node, ← hdb, ← hnb]
    simp
  have hni : ((Node (get_type s nod) (get_tag s nod)
      (Node (get_type s dup) (get_tag s dup) s).2).2).next_id = s.next_id + 2 := by
    rw [next_id_Node, next_id_Node]
  have hgb : ((Node (get_type s nod) (get_tag s nod)
      (Node (get_type s dup) (get_tag s dup) s).2).2).garbage = s.garbage.tail.tail := by
    rw [garbage_Node_tail, garbage_Node_tail]
  have e3 : get_target
      (link ((Node (get_type s nod) (get_tag s nod)
      (Node (get_type s dup) (get_tag s dup) s).2).2) nod 0 a1 a1p) nod 1 = b1 := by
    rw [get_target_link2 _ _ _ _ _ _ _ h9n h9a1 h9n (by decide) hp1 (by decide),
      if_neg (fun h => ne10 h.1.symm),
      if_neg (fun h => absurd h.2 (by decide))]
    exact g3
  have e3p : get_target_port
      (link ((Node (get_type s nod) (get_tag s nod)
      (Node (get_type s dup) (get_tag s dup) s).2).2) nod 0 a1 a1p) nod 1 = b1p := by
    rw [get_target_port_link2 _ _ _ _ _ _ _ h9n h9a1 h9n (by decide) hp1 (by decide),
      if_neg (fun h => ne10 h.1.symm),
      if_neg (fun h => absurd h.2 (by decide))]
    exact g3p
  have e5 : get_target
      (link (link (link ((Node (get_type s nod) (get_tag s nod)
      (Node (get_type s dup) (get_tag s dup) s).2).2) nod 0 a1 a1p) dup 0 b1 b1p) nod 1 dup 1) dup 2 = a2 := by
    rw [get_target_link2 _ _ _ _ _ _ _ h9n h9d h9d (by decide) (by decide) (by decide),
      if_neg (fun h => absurd h.2 (by decide)),
      if_neg (fun h => ne1 h.1.symm),
      get_target_link2 _ _ _ _ _ _ _ h9d h9b1 h9d (by decide) hq1 (by decide),
      if_neg (fun h => ne6 h.1.symm),
      if_neg (fun h => absurd h.2 (by decide)),
      get_target_link2 _ _ _ _ _ _ _ h9n h9a1 h9d (by decide) hp1 (by decide),
      if_neg (fun h => ne4 h.1.symm),
      if_neg (fun h => ne1 h.1.symm)]
    exact g2
  have e5p : get_target_port
      (link (link (link ((Node (get_type s nod) (get_tag s nod)
      (Node (get_type s dup) (get_tag s dup) s).2).2) nod 0 a1 a1p) dup 0 b1 b1p) nod 1 dup 1) dup 2 = a2p := by
    rw [get_target_port_link2 _ _ _ _ _ _ _ h9n h9d h9d (by decide) (by decide) (by decide),
      if_neg (fun h => absurd h.2 (by decide)),
      if_neg (fun h => ne1 h.1.symm),
      get_target_port_link2 _ _ _ _ _ _ _ h9d h9b1 h9d (by decide) hq1 (by decide),
      if_neg (fun h => ne6 h.1.symm),
      if_neg (fun h => absurd h.2 (by decide)),
      get_target_port_link2 _ _ _ _ _ _ _ h9n h9a1 h9d (by decide) hp1 (by decide),
      if_neg (fun h => ne4 h.1.symm),
      if_neg (fun h => ne1 h.1.symm)]
    exact g2p
  have e6 : get_target
      (link (link (link (link ((Node (get_type s nod) (get_tag s nod)
      (Node (get_type s dup) (get_tag s dup) s).2).2) nod 0 a1 a1p) dup 0 b1 b1p) nod 1 dup 1) nb 0 a2 a2p) nod 2 = b2 := by
    rw [get_target_link2 _ _ _ _ _ _ _ h9nb h9a2 h9n (by decide) hp2 (by decide),
      if_neg (fun h => ne11 h.1.symm),
      if_neg (fun h => ne9 h.1.symm),
      get_target_link2 _ _ _ _ _ _ _ h9n h9d h9n (by decide) (by decide) (by decide),
      if_neg (fun h => ne1 h.1),
      if_neg (fun h => absurd h.2 (by decide)),
      get_target_link2 _ _ _ _ _ _ _ h9d h9b1 h9n (by decide) hq1 (by decide),
      if_neg (fun h => ne12 h.1.symm),
      if_neg (fun h => ne1 h.1),
      get_target_link2 _ _ _ _ _ _ _ h9n h9a1 h9n (by decide) hp1 (by decide),
      if_neg (fun h => ne10 h.1.symm),
      if_neg (fun h => absurd h.2 (by decide))]
    exact g4
  have e6p : get_target_port
      (link (link (link (link ((Node (get_type s nod) (get_tag s nod)
      (Node (get_type s dup) (get_tag s dup) s).2).2) nod 0 a1 a1p) dup 0 b1 b1p) nod 1 dup 1) nb 0 a2 a2p) nod 2 = b2p := by
    rw [get_target_port_link2 _ _ _ _ _ _ _ h9nb h9a2 h9n (by decide) hp2 (by decide),
      if_neg (fun h => ne11 h.1.symm),
      if_neg (fun h => ne9 h.1.symm),
      get_target_port_link2 _ _ _ _ _ _ _ h9n h9d h9n (by decide) (by decide) (by decide),
      if_neg (fun h => ne1 h.1),
      if_neg (fun h => absurd h.2 (by decide)),
      get_target_port_link2 _ _ _ _ _ _ _ h9d h9b1 h9n (by decide) hq1 (by decide),
      if_neg (fun h => ne12 h.1.symm),
      if_neg (fun h => ne1 h.1),
      get_target_port_link2 _ _ _ _ _ _ _ h9n h9a1 h9n (by decide) hp1 (by decide),
      if_neg (fun h => ne10 h.1.symm),
      if_neg (fun h => absurd h.2 (by decide))]
    exact g4p
  have hcom : commute dup nod s =
      link (link (link (link (link (link (link (link ((Node (get_type s nod) (get_tag s nod)
      (Node (get_type s dup) (get_tag s dup) s).2).2) nod 0 a1 a1p) dup 0 b1 b1p) nod 1 dup 1) nb 0 a2 a2p) db 0 b2 b2p) dup 2 nb 1) nod 2 db 1) nb 2 db 2 := by
    have htync := htyn
    have htgnc := htgn
    have hdbc := hdb
    have hnbc := hnb
    have g1c := g1
    have g1pc := g1p
    have g2c := g2
    have g2pc := g2p
    have g3c := g3
    have g3pc := g3p
    have g4c := g4
    have g4pc := g4p
    have e3c := e3
    have e3pc := e3p
    have e5c := e5
    have e5pc := e5p
    have e6c := e6
    have e6pc := e6p
    unfold commute
    dsimp only
    rcases hN1 : Node (get_type s dup) (get_tag s dup) s with ⟨db0, s1⟩
    rw [hN1] at htync htgnc g1c g1pc g2c g2pc g3c g3pc g4c g4pc e3c e3pc e5c e5pc e6c e6pc hdbc hnbc
    dsimp only at htync htgnc g1c g1pc g2c g2pc g3c g3pc g4c g4pc e3c e3pc e5c e5pc e6c e6pc hdbc hnbc ⊢
    rw [htync, htgnc]
    rcases hN2 : Node (get_type s nod) (get_tag s nod) s1 with ⟨nb0, s2⟩
    rw [hN2] at g1c g1pc g2c g2pc g3c g3pc g4c g4pc e3c e3pc e5c e5pc e6c e6pc hnbc
    dsimp only at g1c g1pc g2c g2pc g3c g3pc g4c g4pc e3c e3pc e5c e5pc e6c e6pc hnbc ⊢
    subst hdbc
    subst hnbc
    rw [g1c, g1pc]
    rw [e3c, e3pc]
    rw [e5c, e5pc]
    rw [e6c, e6pc]
  rw [hcom]
  refine ⟨?_, ?_, ?_, ?_, ?_, ?_, ?_, ?_, ?_, ?_, ?_, ?_, ?_, ?_, ?_, ?_, ?_, ?_, ?_, ?_, ?_, ?_, ?_, ?_, ?_, ?_, ?_, ?_, ?_, ?_, ?_, ?_, ?_, ?_, ?_, ?_, ?_, ?_, ?_⟩
  · simp only [garbage_link]
    exact hgb
  · simp only [next_id_link]
    exact hni
  · simp only [allocs_link]
    exact hal
  · rw [get_type_link2 _ _ _ _ _ _ h9nb h9db h9db (by decide) (by decide),
      get_type_link2 _ _ _ _ _ _ h9n h9db h9db (by decide) (by decide),
      get_type_link2 _ _ _ _ _ _ h9d h9nb h9db (by decide) (by decide),
      get_type_link2 _ _ _ _ _ _ h9db h9b2 h9db (by decide) hq2,
      get_type_link2 _ _ _ _ _ _ h9nb h9a2 h9db (by decide) hp2,
      get_type_link2 _ _ _ _ _ _ h9n h9d h9db (by decide) (by decide),
      get_type_link2 _ _ _ _ _ _ h9d h9b1 h9db (by decide) hq1,
      get_type_link2 _ _ _ _ _ _ h9n h9a1 h9db (by decide) hp1]
    exact f1
  · rw [get_tag_link2 _ _ _ _ _ _ h9nb h9db h9db (by decide) (by decide),
      get_tag_link2 _ _ _ _ _ _ h9n h9db h9db (by decide) (by decide),
      get_tag_link2 _ _ _ _ _ _ h9d h9nb h9db (by decide) (by decide),
      get_tag_link2 _ _ _ _ _ _ h9db h9b2 h9db (by decide) hq2,
      get_tag_link2 _ _ _ _ _ _ h9nb h9a2 h9db (by decide) hp2,
      get_tag_link2 _ _ _ _ _ _ h9n h9d h9db (by decide) (by decide),
      get_tag_link2 _ _ _ _ _ _ h9d h9b1 h9db (by decide) hq1,
      get_tag_link2 _ _ _ _ _ _ h9n h9a1 h9db (by decide) hp1]
    exact f2
  · rw [get_type_link2 _ _ _ _ _ _ h9nb h9db h9nb (by decide) (by decide),
      get_type_link2 _ _ _ _ _ _ h9n h9db h9nb (by decide) (by decide),
      get_type_link2 _ _ _ _ _ _ h9d h9nb h9nb (by decide) (by decide),
      get_type_link2 _ _ _ _ _ _ h9db h9b2 h9nb (by decide) hq2,
      get_type_link2 _ _ _ _ _ _ h9nb h9a2 h9nb (by decide) hp2,
      get_type_link2 _ _ _ _ _ _ h9n h9d h9nb (by decide) (by decide),
      get_type_link2 _ _ _ _ _ _ h9d h9b1 h9nb (by decide) hq1,
      get_type_link2 _ _ _ _ _ _ h9n h9a1 h9nb (by decide) hp1]
    exact f3
  · rw [get_tag_link2 _ _ _ _ _ _ h9nb h9db h9nb (by decide) (by decide),
      get_tag_link2 _ _ _ _ _ _ h9n h9db h9nb (by decide) (by decide),
      get_tag_link2 _ _ _ _ _ _ h9d h9nb h9nb (by decide) (by decide),
      get_tag_link2 _ _ _ _ _ _ h9db h9b2 h9nb (by decide) hq2,
      get_tag_link2 _ _ _ _ _ _ h9nb h9a2 h9nb (by decide) hp2,
      get_tag_link2 _ _ _ _ _ _ h9n h9d h9nb (by decide) (by decide),
      get_tag_link2 _ _ _ _ _ _ h9d h9b1 h9nb (by decide) hq1,
      get_tag_link2 _ _ _ _ _ _ h9n h9a1 h9nb (by decide) hp1]
    exact f4
  · rw [get_target_link2 _ _ _ _ _ _ _ h9nb h9db h9a1 (by decide) (by decide) hp1,
      if_neg (fun h => ne15 h.1),
      if_neg (fun h => ne19 h.1),
      get_target_link2 _ _ _ _ _ _ _ h9n h9db h9a1 (by decide) (by decide) hp1,
      if_neg (fun h => ne15 h.1),
      if_neg (fun h => ne10 h.1),
      get_target_link2 _ _ _ _ _ _ _ h9d h9nb h9a1 (by decide) (by decide) hp1,
      if_neg (fun h => ne19 h.1),
      if_neg (fun h => ne4 h.1),
      get_target_link2 _ _ _ _ _ _ _ h9db h9b2 h9a1 (by decide) hq2 hp1,
      if_neg (fun h => ne25 h.1.symm),
      if_neg (fun h => ne15 h.1),
      get_target_link2 _ _ _ _ _ _ _ h9nb h9a2 h9a1 (by decide) hp2 hp1,
      if_neg (fun h => ne23 h.1.symm),
      if_neg (fun h => ne19 h.1),
      get_target_link2 _ _ _ _ _ _ _ h9n h9d h9a1 (by decide) (by decide) hp1,
      if_neg (fun h => ne4 h.1),
      if_neg (fun h => ne10 h.1),
      get_target_link2 _ _ _ _ _ _ _ h9d h9b1 h9a1 (by decide) hq1 hp1,
      if_neg (fun h => ne24 h.1.symm),
      if_neg (fun h => ne4 h.1),
      get_target_link2 _ _ _ _ _ _ _ h9n h9a1 h9a1 (by decide) hp1 hp1,
      if_pos (show a1 = a1 ∧ a1p = a1p from ⟨rfl, rfl⟩)]
  · rw [get_target_port_link2 _ _ _ _ _ _ _ h9nb h9db h9a1 (by decide) (by decide) hp1,
      if_neg (fun h => ne15 h.1),
      if_neg (fun h => ne19 h.1),
      get_target_port_link2 _ _ _ _ _ _ _ h9n h9db h9a1 (by decide) (by decide) hp1,
      if_neg (fun h => ne15 h.1),
      if_neg (fun h => ne10 h.1),
      get_target_port_link2 _ _ _ _ _ _ _ h9d h9nb h9a1 (by decide) (by decide) hp1,
      if_neg (fun h => ne19 h.1),
      if_neg (fun h => ne4 h.1),
      get_target_port_link2 _ _ _ _ _ _ _ h9db h9b2 h9a1 (by decide) hq2 hp1,
      if_neg (fun h => ne25 h.1.symm),
      if_neg (fun h => ne15 h.1),
      get_target_port_link2 _ _ _ _ _ _ _ h9nb h9a2 h9a1 (by decide) hp2 hp1,
      if_neg (fun h => ne23 h.1.symm),
      if_neg (fun h => ne19 h.1),
      get_target_port_link2 _ _ _ _ _ _ _ h9n h9d h9a1 (by decide) (by decide) hp1,
      if_neg (fun h => ne4 h.1),
      if_neg (fun h => ne10 h.1),
      get_target_port_link2 _ _ _ _ _ _ _ h9d h9b1 h9a1 (by decide) hq1 hp1,
      if_neg (fun h => ne24 h.1.symm),
      if_neg (fun h => ne4 h.1),
      get_target_port_link2 _ _ _ _ _ _ _ h9n h9a1 h9a1 (by decide) hp1 hp1,
      if_pos (show a1 = a1 ∧ a1p = a1p from ⟨rfl, rfl⟩)]
  · rw [get_target_link2 _ _ _ _ _ _ _ h9nb h9db h9n (by decide) (by decide) (by decide),
      if_neg (fun h => ne8 h.1.symm),
      if_neg (fun h => ne9 h.1.symm),
      get_target_link2 _ _ _ _ _ _ _ h9n h9db h9n (by decide) (by decide) (by decide),
      if_neg (fun h => ne8 h.1.symm),
      if_neg (fun h => absurd h.2 (by decide)),
      get_target_link2 _ _ _ _ _ _ _ h9d h9nb h9n (by decide) (by decide) (by decide),
      if_neg (fun h => ne9 h.1.symm),
      if_neg (fun h => ne1 h.1),
      get_target_link2 _ _ _ _ _ _ _ h9db h9b2 h9n (by decide) hq2 (by decide),
      if_neg (fun h => ne13 h.1.symm),
      if_neg (fun h => ne8 h.1.symm),
      get_target_link2 _ _ _ _ _ _ _ h9nb h9a2 h9n (by decide) hp2 (by decide),
      if_neg (fun h => ne11 h.1.symm),
      if_neg (fun h => ne9 h.1.symm),
      get_target_link2 _ _ _ _ _ _ _ h9n h9d h9n (by decide) (by decide) (by decide),
      if_neg (fun h => ne1 h.1),
      if_neg (fun h => absurd h.2 (by decide)),
      get_target_link2 _ _ _ _ _ _ _ h9d h9b1 h9n (by decide) hq1 (by decide),
      if_neg (fun h => ne12 h.1.symm),
      if_neg (fun h => ne1 h.1),
      get_target_link2 _ _ _ _ _ _ _ h9n h9a1 h9n (by decide) hp1 (by decide),
      if_neg (fun h => ne10 h.1.symm),
      if_pos (show nod = nod ∧ (0 : Nat) = 0 from ⟨rfl, rfl⟩)]
  · rw [get_target_port_link2 _ _ _ _ _ _ _ h9nb h9db h9n (by decide) (by decide) (by decide),
      if_neg (fun h => ne8 h.1.symm),
      if_neg (fun h => ne9 h.1.symm),
      get_target_port_link2 _ _ _ _ _ _ _ h9n h9db h9n (by decide) (by decide) (by decide),
      if_neg (fun h => ne8 h.1.symm),
      if_neg (fun h => absurd h.2 (by decide)),
      get_target_port_link2 _ _ _ _ _ _ _ h9d h9nb h9n (by decide) (by decide) (by decide),
      if_neg (fun h => ne9 h.1.symm),
      if_neg (fun h => ne1 h.1),
      get_target_port_link2 _ _ _ _ _ _ _ h9db h9b2 h9n (by decide) hq2 (by decide),
      if_neg (fun h => ne13 h.1.symm),
      if_neg (fun h => ne8 h.1.symm),
      get_target_port_link2 _ _ _ _ _ _ _ h9nb h9a2 h9n (by decide) hp2 (by decide),
      if_neg (fun h => ne11 h.1.symm),
      if_neg (fun h => ne9 h.1.symm),
      get_target_port_link2 _ _ _ _ _ _ _ h9n h9d h9n (by decide) (by decide) (by decide),
      if_neg (fun h => ne1 h.1),
      if_neg (fun h => absurd h.2 (by decide)),
      get_target_port_link2 _ _ _ _ _ _ _ h9d h9b1 h9n (by decide) hq1 (by decide),
      if_neg (fun h => ne12 h.1.symm),
      if_neg (fun h => ne1 h.1),
      get_target_port_link2 _ _ _ _ _ _ _ h9n h9a1 h9n (by decide) hp1 (by decide),
      if_neg (fun h => ne10 h.1.symm),
      if_pos (show nod = nod ∧ (0 : Nat) = 0 from ⟨rfl, rfl⟩)]
  · rw [get_target_link2 _ _ _ _ _ _ _ h9nb h9db h9b1 (by decide) (by decide) hq1,
      if_neg (fun h => ne17 h.1),
      if_neg (fun h => ne21 h.1),
      get_target_link2 _ _ _ _ _ _ _ h9n h9db h9b1 (by decide) (by decide) hq1,
      if_neg (fun h => ne17 h.1),
      if_neg (fun h => ne12 h.1),
      get_target_link2 _ _ _ _ _ _ _ h9d h9nb h9b1 (by decide) (by decide) hq1,
      if_neg (fun h => ne21 h.1),
      if_neg (fun h => ne6 h.1),
      get_target_link2 _ _ _ _ _ _ _ h9db h9b2 h9b1 (by decide) hq2 hq1,
      if_neg (fun h => ne28 h.1.symm),
      if_neg (fun h => ne17 h.1),
      get_target_link2 _ _ _ _ _ _ _ h9nb h9a2 h9b1 (by decide) hp2 hq1,
      if_neg (fun h => ne26 h.1),
      if_neg (fun h => ne21 h.1),
      get_target_link2 _ _ _ _ _ _ _ h9n h9d h9b1 (by decide) (by decide) hq1,
      if_neg (fun h => ne6 h.1),
      if_neg (fun h => ne12 h.1),
      get_target_link2 _ _ _ _ _ _ _ h9d h9b1 h9b1 (by decide) hq1 hq1,
      if_pos (show b1 = b1 ∧ b1p = b1p from ⟨rfl, rfl⟩)]
  · rw [get_target_port_link2 _ _ _ _ _ _ _ h9nb h9db h9b1 (by decide) (by decide) hq1,
      if_neg (fun h => ne17 h.1),
      if_neg (fun h => ne21 h.1),
      get_target_port_link2 _ _ _ _ _ _ _ h9n h9db h9b1 (by decide) (by decide) hq1,
      if_neg (fun h => ne17 h.1),
      if_neg (fun h => ne12 h.1),
      get_target_port_link2 _ _ _ _ _ _ _ h9d h9nb h9b1 (by decide) (by decide) hq1,
      if_neg (fun h => ne21 h.1),
      if_neg (fun h => ne6 h.1),
      get_target_port_link2 _ _ _ _ _ _ _ h9db h9b2 h9b1 (by decide) hq2 hq1,
      if_neg (fun h => ne28 h.1.symm),
      if_neg (fun h => ne17 h.1),
      get_target_port_link2 _ _ _ _ _ _ _ h9nb h9a2 h9b1 (by decide) hp2 hq1,
      if_neg (fun h => ne26 h.1),
      if_neg (fun h => ne21 h.1),
      get_target_port_link2 _ _ _ _ _ _ _ h9n h9d h9b1 (by decide) (by decide) hq1,
      if_neg (fun h => ne6 h.1),
      if_neg (fun h => ne12 h.1),
      get_target_port_link2 _ _ _ _ _ _ _ h9d h9b1 h9b1 (by decide) hq1 hq1,
      if_pos (show b1 = b1 ∧ b1p = b1p from ⟨rfl, rfl⟩)]
  · rw [get_target_link2 _ _ _ _ _ _ _ h9nb h9db h9d (by decide) (by decide) (by decide),
      if_neg (fun h => ne2 h.1.symm),
      if_neg (fun h => ne3 h.1.symm),
      get_target_link2 _ _ _ _ _ _ _ h9n h9db h9d (by decide) (by decide) (by decide),
      if_neg (fun h => ne2 h.1.symm),
      if_neg (fun h => ne1 h.1.symm),
      get_target_link2 _ _ _ _ _ _ _ h9d h9nb h9d (by decide) (by decide) (by decide),
      if_neg (fun h => ne3 h.1.symm),
      if_neg (fun h => absurd h.2 (by decide)),
      get_target_link2 _ _ _ _ _ _ _ h9db h9b2 h9d (by decide) hq2 (by decide),
      if_neg (fun h => ne7 h.1.symm),
      if_neg (fun h => ne2 h.1.symm),
      get_target_link2 _ _ _ _ _ _ _ h9nb h9a2 h9d (by decide) hp2 (by decide),
      if_neg (fun h => ne5 h.1.symm),
      if_neg (fun h => ne3 h.1.symm),
      get_target_link2 _ _ _ _ _ _ _ h9n h9d h9d (by decide) (by decide) (by decide),
      if_neg (fun h => absurd h.2 (by decide)),
      if_neg (fun h => ne1 h.1.symm),
      get_target_link2 _ _ _ _ _ _ _ h9d h9b1 h9d (by decide) hq1 (by decide),
      if_neg (fun h => ne6 h.1.symm),
      if_pos (show dup = dup ∧ (0 : Nat) = 0 from ⟨rfl, rfl⟩)]
  · rw [get_target_port_link2 _ _ _ _ _ _ _ h9nb h9db h9d (by decide) (by decide) (by decide),
      if_neg (fun h => ne2 h.1.symm),
      if_neg (fun h => ne3 h.1.symm),
      get_target_port_link2 _ _ _ _ _ _ _ h9n h9db h9d (by decide) (by decide) (by decide),
      if_neg (fun h => ne2 h.1.symm),
      if_neg (fun h => ne1 h.1.symm),
      get_target_port_link2 _ _ _ _ _ _ _ h9d h9nb h9d (by decide) (by decide) (by decide),
      if_neg (fun h => ne3 h.1.symm),
      if_neg (fun h => absurd h.2 (by decide)),
      get_target_port_link2 _ _ _ _ _ _ _ h9db h9b2 h9d (by decide) hq2 (by decide),
      if_neg (fun h => ne7 h.1.symm),
      if_neg (fun h => ne2 h.1.symm),
      get_target_port_link2 _ _ _ _ _ _ _ h9nb h9a2 h9d (by decide) hp2 (by decide),
      if_neg (fun h => ne5 h.1.symm),
      if_neg (fun h => ne3 h.1.symm),
      get_target_port_link2 _ _ _ _ _ _ _ h9n h9d h9d (by decide) (by decide) (by decide),
      if_neg (fun h => absurd h.2 (by decide)),
      if_neg (fun h => ne1 h.1.symm),
      get_target_port_link2 _ _ _ _ _ _ _ h9d h9b1 h9d (by decide) hq1 (by decide),
      if_neg (fun h => ne6 h.1.symm),
      if_pos (show dup = dup ∧ (0 : Nat) = 0 from ⟨rfl, rfl⟩)]
  · rw [get_target_link2 _ _ _ _ _ _ _ h9nb h9db h9n (by decide) (by decide) (by decide),
      if_neg (fun h => ne8 h.1.symm),
      if_neg (fun h => ne9 h.1.symm),
      get_target_link2 _ _ _ _ _ _ _ h9n h9db h9n (by decide) (by decide) (by decide),
      if_neg (fun h => ne8 h.1.symm),
      if_neg (fun h => absurd h.2 (by decide)),
      get_target_link2 _ _ _ _ _ _ _ h9d h9nb h9n (by decide) (by decide) (by decide),
      if_neg (fun h => ne9 h.1.symm),
      if_neg (fun h => ne1 h.1),
      get_target_link2 _ _ _ _ _ _ _ h9db h9b2 h9n (by decide) hq2 (by decide),
      if_neg (fun h => ne13 h.1.symm),
      if_neg (fun h => ne8 h.1.symm),
      get_target_link2 _ _ _ _ _ _ _ h9nb h9a2 h9n (by decide) hp2 (by decide),
      if_neg (fun h => ne11 h.1.symm),
      if_neg (fun h => ne9 h.1.symm),
      get_target_link2 _ _ _ _ _ _ _ h9n h9d h9n (by decide) (by decide) (by decide),
      if_neg (fun h => ne1 h.1),
      if_pos (show nod = nod ∧ (1 : Nat) = 1 from ⟨rfl, rfl⟩)]
  · rw [get_target_port_link2 _ _ _ _ _ _ _ h9nb h9db h9n (by decide) (by decide) (by decide),
      if_neg (fun h => ne8 h.1.symm),
      if_neg (fun h => ne9 h.1.symm),
      get_target_port_link2 _ _ _ _ _ _ _ h9n h9db h9n (by decide) (by decide) (by decide),
      if_neg (fun h => ne8 h.1.symm),
      if_neg (fun h => absurd h.2 (by decide)),
      get_target_port_link2 _ _ _ _ _ _ _ h9d h9nb h9n (by decide) (by decide) (by decide),
      if_neg (fun h => ne9 h.1.symm),
      if_neg (fun h => ne1 h.1),
      get_target_port_link2 _ _ _ _ _ _ _ h9db h9b2 h9n (by decide) hq2 (by decide),
      if_neg (fun h => ne13 h.1.symm),
      if_neg (fun h => ne8 h.1.symm),
      get_target_port_link2 _ _ _ _ _ _ _ h9nb h9a2 h9n (by decide) hp2 (by decide),
      if_neg (fun h => ne11 h.1.symm),
      if_neg (fun h => ne9 h.1.symm),
      get_target_port_link2 _ _ _ _ _ _ _ h9n h9d h9n (by decide) (by decide) (by decide),
      if_neg (fun h => ne1 h.1),
      if_pos (show nod = nod ∧ (1 : Nat) = 1 from ⟨rfl, rfl⟩)]
  · rw [get_target_link2 _ _ _ _ _ _ _ h9nb h9db h9d (by decide) (by decide) (by decide),
      if_neg (fun h => ne2 h.1.symm),
      if_neg (fun h => ne3 h.1.symm),
      get_target_link2 _ _ _ _ _ _ _ h9n h9db h9d (by decide) (by decide) (by decide),
      if_neg (fun h => ne2 h.1.symm),
      if_neg (fun h => ne1 h.1.symm),
      get_target_link2 _ _ _ _ _ _ _ h9d h9nb h9d (by decide) (by decide) (by decide),
      if_neg (fun h => ne3 h.1.symm),
      if_neg (fun h => absurd h.2 (by decide)),
      get_target_link2 _ _ _ _ _ _ _ h9db h9b2 h9d (by decide) hq2 (by decide),
      if_neg (fun h => ne7 h.1.symm),
      if_neg (fun h => ne2 h.1.symm),
      get_target_link2 _ _ _ _ _ _ _ h9nb h9a2 h9d (by decide) hp2 (by decide),
      if_neg (fun h => ne5 h.1.symm),
      if_neg (fun h => ne3 h.1.symm),
      get_target_link2 _ _ _ _ _ _ _ h9n h9d h9d (by decide) (by decide) (by decide),
      if_pos (show dup = dup ∧ (1 : Nat) = 1 from ⟨rfl, rfl⟩)]
  · rw [get_target_port_link2 _ _ _ _ _ _ _ h9nb h9db h9d (by decide) (by decide) (by decide),
      if_neg (fun h => ne2 h.1.symm),
      if_neg (fun h => ne3 h.1.symm),
      get_target_port_link2 _ _ _ _ _ _ _ h9n h9db h9d (by decide) (by decide) (by decide),
      if_neg (fun h => ne2 h.1.symm),
      if_neg (fun h => ne1 h.1.symm),
      get_target_port_link2 _ _ _ _ _ _ _ h9d h9nb h9d (by decide) (by decide) (by decide),
      if_neg (fun h => ne3 h.1.symm),
      if_neg (fun h => absurd h.2 (by decide)),
      get_target_port_link2 _ _ _ _ _ _ _ h9db h9b2 h9d (by decide) hq2 (by decide),
      if_neg (fun h => ne7 h.1.symm),
      if_neg (fun h => ne2 h.1.symm),
      get_target_port_link2 _ _ _ _ _ _ _ h9nb h9a2 h9d (by decide) hp2 (by decide),
      if_neg (fun h => ne5 h.1.symm),
      if_neg (fun h => ne3 h.1.symm),
      get_target_port_link2 _ _ _ _ _ _ _ h9n h9d h9d (by decide) (by decide) (by decide),
      if_pos (show dup = dup ∧ (1 : Nat) = 1 from ⟨rfl, rfl⟩)]
  · rw [get_target_link2 _ _ _ _ _ _ _ h9nb h9db h9a2 (by decide) (by decide) hp2,
      if_neg (fun h => ne16 h.1),
      if_neg (fun h => ne20 h.1),
      get_target_link2 _ _ _ _ _ _ _ h9n h9db h9a2 (by decide) (by decide) hp2,
      if_neg (fun h => ne16 h.1),
      if_neg (fun h => ne11 h.1),
      get_target_link2 _ _ _ _ _ _ _ h9d h9nb h9a2 (by decide) (by decide) hp2,
      if_neg (fun h => ne20 h.1),
      if_neg (fun h => ne5 h.1),
      get_target_link2 _ _ _ _ _ _ _ h9db h9b2 h9a2 (by decide) hq2 hp2,
      if_neg (fun h => ne27 h.1.symm),
      if_neg (fun h => ne16 h.1),
      get_target_link2 _ _ _ _ _ _ _ h9nb h9a2 h9a2 (by decide) hp2 hp2,
      if_pos (show a2 = a2 ∧ a2p = a2p from ⟨rfl, rfl⟩)]
  · rw [get_target_port_link2 _ _ _ _ _ _ _ h9nb h9db h9a2 (by decide) (by decide) hp2,
      if_neg (fun h => ne16 h.1),
      if_neg (fun h => ne20 h.1),
      get_target_port_link2 _ _ _ _ _ _ _ h9n h9db h9a2 (by decide) (by decide) hp2,
      if_neg (fun h => ne16 h.1),
      if_neg (fun h => ne11 h.1),
      get_target_port_link2 _ _ _ _ _ _ _ h9d h9nb h9a2 (by decide) (by decide) hp2,
      if_neg (fun h => ne20 h.1),
      if_neg (fun h => ne5 h.1),
      get_target_port_link2 _ _ _ _ _ _ _ h9db h9b2 h9a2 (by decide) hq2 hp2,
      if_neg (fun h => ne27 h.1.symm),
      if_neg (fun h => ne16 h.1),
      get_target_port_link2 _ _ _ _ _ _ _ h9nb h9a2 h9a2 (by decide) hp2 hp2,
      if_pos (show a2 = a2 ∧ a2p = a2p from ⟨rfl, rfl⟩)]
  · rw [get_target_link2 _ _ _ _ _ _ _ h9nb h9db h9nb (by decide) (by decide) (by decide),
      if_neg (fun h => ne14 h.1),
      if_neg (fun h => absurd h.2 (by decide)),
      get_target_link2 _ _ _ _ _ _ _ h9n h9db h9nb (by decide) (by decide) (by decide),
      if_neg (fun h => ne14 h.1),
      if_neg (fun h => ne9 h.1),
      get_target_link2 _ _ _ _ _ _ _ h9d h9nb h9nb (by decide) (by decide) (by decide),
      if_neg (fun h => absurd h.2 (by decide)),
      if_neg (fun h => ne3 h.1),
      get_target_link2 _ _ _ _ _ _ _ h9db h9b2 h9nb (by decide) hq2 (by decide),
      if_neg (fun h => ne22 h.1.symm),
      if_neg (fun h => ne14 h.1),
      get_target_link2 _ _ _ _ _ _ _ h9nb h9a2 h9nb (by decide) hp2 (by decide),
      if_neg (fun h => ne20 h.1.symm),
      if_pos (show nb = nb ∧ (0 : Nat) = 0 from ⟨rfl, rfl⟩)]
  · rw [get_target_port_link2 _ _ _ _ _ _ _ h9nb h9db h9nb (by decide) (by decide) (by decide),
      if_neg (fun h => ne14 h.1),
      if_neg (fun h => absurd h.2 (by decide)),
      get_target_port_link2 _ _ _ _ _ _ _ h9n h9db h9nb (by decide) (by decide) (by decide),
      if_neg (fun h => ne14 h.1),
      if_neg (fun h => ne9 h.1),
      get_target_port_link2 _ _ _ _ _ _ _ h9d h9nb h9nb (by decide) (by decide) (by decide),
      if_neg (fun h => absurd h.2 (by decide)),
      if_neg (fun h => ne3 h.1),
      get_target_port_link2 _ _ _ _ _ _ _ h9db h9b2 h9nb (by decide) hq2 (by decide),
      if_neg (fun h => ne22 h.1.symm),
      if_neg (fun h => ne14 h.1),
      get_target_port_link2 _ _ _ _ _ _ _ h9nb h9a2 h9nb (by decide) hp2 (by decide),
      if_neg (fun h => ne20 h.1.symm),
      if_pos (show nb = nb ∧ (0 : Nat) = 0 from ⟨rfl, rfl⟩)]
  · rw [get_target_link2 _ _ _ _ _ _ _ h9nb h9db h9b2 (by decide) (by decide) hq2,
      if_neg (fun h => ne18 h.1),
      if_neg (fun h => ne22 h.1),
      get_target_link2 _ _ _ _ _ _ _ h9n h9db h9b2 (by decide) (by decide) hq2,
      if_neg (fun h => ne18 h.1),
      if_neg (fun h => ne13 h.1),
      get_target_link2 _ _ _ _ _ _ _ h9d h9nb h9b2 (by decide) (by decide) hq2,
      if_neg (fun h => ne22 h.1),
      if_neg (fun h => ne7 h.1),
      get_target_link2 _ _ _ _ _ _ _ h9db h9b2 h9b2 (by decide) hq2 hq2,
      if_pos (show b2 = b2 ∧ b2p = b2p from ⟨rfl, rfl⟩)]
  · rw [get_target_port_link2 _ _ _ _ _ _ _ h9nb h9db h9b2 (by decide) (by decide) hq2,
      if_neg (fun h => ne18 h.1),
      if_neg (fun h => ne22 h.1),
      get_target_port_link2 _ _ _ _ _ _ _ h9n h9db h9b2 (by decide) (by decide) hq2,
      if_neg (fun h => ne18 h.1),
      if_neg (fun h => ne13 h.1),
      get_target_port_link2 _ _ _ _ _ _ _ h9d h9nb h9b2 (by decide) (by decide) hq2,
      if_neg (fun h => ne22 h.1),
      if_neg (fun h => ne7 h.1),
      get_target_port_link2 _ _ _ _ _ _ _ h9db h9b2 h9b2 (by decide) hq2 hq2,
      if_pos (show b2 = b2 ∧ b2p = b2p from ⟨rfl, rfl⟩)]
  · rw [get_target_link2 _ _ _ _ _ _ _ h9nb h9db h9db (by decide) (by decide) (by decide),
      if_neg (fun h => absurd h.2 (by decide)),
      if_neg (fun h => ne14 h.1.symm),
      get_target_link2 _ _ _ _ _ _ _ h9n h9db h9db (by decide) (by decide) (by decide),
      if_neg (fun h => absurd h.2 (by decide)),
      if_neg (fun h => ne8 h.1),
      get_target_link2 _ _ _ _ _ _ _ h9d h9nb h9db (by decide) (by decide) (by decide),
      if_neg (fun h => ne14 h.1.symm),
      if_neg (fun h => ne2 h.1),
      get_target_link2 _ _ _ _ _ _ _ h9db h9b2 h9db (by decide) hq2 (by decide),
      if_neg (fun h => ne18 h.1.symm),
      if_pos (show db = db ∧ (0 : Nat) = 0 from ⟨rfl, rfl⟩)]
  · rw [get_target_port_link2 _ _ _ _ _ _ _ h9nb h9db h9db (by decide) (by decide) (by decide),
      if_neg (fun h => absurd h.2 (by decide)),
      if_neg (fun h => ne14 h.1.symm),
      get_target_port_link2 _ _ _ _ _ _ _ h9n h9db h9db (by decide) (by decide) (by decide),
      if_neg (fun h => absurd h.2 (by decide)),
      if_neg (fun h => ne8 h.1),
      get_target_port_link2 _ _ _ _ _ _ _ h9d h9nb h9db (by decide) (by decide) (by decide),
      if_neg (fun h => ne14 h.1.symm),
      if_neg (fun h => ne2 h.1),
      get_target_port_link2 _ _ _ _ _ _ _ h9db h9b2 h9db (by decide) hq2 (by decide),
      if_neg (fun h => ne18 h.1.symm),
      if_pos (show db = db ∧ (0 : Nat) = 0 from ⟨rfl, rfl⟩)]
  · rw [get_target_link2 _ _ _ _ _ _ _ h9nb h9db h9d (by decide) (by decide) (by decide),
      if_neg (fun h => ne2 h.1.symm),
      if_neg (fun h => ne3 h.1.symm),
      get_target_link2 _ _ _ _ _ _ _ h9n h9db h9d (by decide) (by decide) (by decide),
      if_neg (fun h => ne2 h.1.symm),
      if_neg (fun h => ne1 h.1.symm),
      get_target_link2 _ _ _ _ _ _ _ h9d h9nb h9d (by decide) (by decide) (by decide),
      if_neg (fun h => ne3 h.1.symm),
      if_pos (show dup = dup ∧ (2 : Nat) = 2 from ⟨rfl, rfl⟩)]
  · rw [get_target_port_link2 _ _ _ _ _ _ _ h9nb h9db h9d (by decide) (by decide) (by decide),
      if_neg (fun h => ne2 h.1.symm),
      if_neg (fun h => ne3 h.1.symm),
      get_target_port_link2 _ _ _ _ _ _ _ h9n h9db h9d (by decide) (by decide) (by decide),
      if_neg (fun h => ne2 h.1.symm),
      if_neg (fun h => ne1 h.1.symm),
      get_target_port_link2 _ _ _ _ _ _ _ h9d h9nb h9d (by decide) (by decide) (by decide),
      if_neg (fun h => ne3 h.1.symm),
      if_pos (show dup = dup ∧ (2 : Nat) = 2 from ⟨rfl, rfl⟩)]
  · rw [get_target_link2 _ _ _ _ _ _ _ h9nb h9db h9nb (by decide) (by decide) (by decide),
      if_neg (fun h => ne14 h.1),
      if_neg (fun h => absurd h.2 (by decide)),
      get_target_link2 _ _ _ _ _ _ _ h9n h9db h9nb (by decide) (by decide) (by decide),
      if_neg (fun h => ne14 h.1),
      if_neg (fun h => ne9 h.1),
      get_target_link2 _ _ _ _ _ _ _ h9d h9nb h9nb (by decide) (by decide) (by decide),
      if_pos (show nb = nb ∧ (1 : Nat) = 1 from ⟨rfl, rfl⟩)]
  · rw [get_target_port_link2 _ _ _ _ _ _ _ h9nb h9db h9nb (by decide) (by decide) (by decide),
      if_neg (fun h => ne14 h.1),
      if_neg (fun h => absurd h.2 (by decide)),
      get_target_port_link2 _ _ _ _ _ _ _ h9n h9db h9nb (by decide) (by decide) (by decide),
      if_neg (fun h => ne14 h.1),
      if_neg (fun h => ne9 h.1),
      get_target_port_link2 _ _ _ _ _ _ _ h9d h9nb h9nb (by decide) (by decide) (by decide),
      if_pos (show nb = nb ∧ (1 : Nat) = 1 from ⟨rfl, rfl⟩)]
  · rw [get_target_link2 _ _ _ _ _ _ _ h9nb h9db h9n (by decide) (by decide) (by decide),
      if_neg (fun h => ne8 h.1.symm),
      if_neg (fun h => ne9 h.1.symm),
      get_target_link2 _ _ _ _ _ _ _ h9n h9db h9n (by decide) (by decide) (by decide),
      if_neg (fun h => ne8 h.1.symm),
      if_pos (show nod = nod ∧ (2 : Nat) = 2 from ⟨rfl, rfl⟩)]
  · rw [get_target_port_link2 _ _ _ _ _ _ _ h9nb h9db h9n (by decide) (by decide) (by decide),
      if_neg (fun h => ne8 h.1.symm),
      if_neg (fun h => ne9 h.1.symm),
      get_target_port_link2 _ _ _ _ _ _ _ h9n h9db h9n (by decide) (by decide) (by decide),
      if_neg (fun h => ne8 h.1.symm),
      if_pos (show nod = nod ∧ (2 : Nat) = 2 from ⟨rfl, rfl⟩)]
  · rw [get_target_link2 _ _ _ _ _ _ _ h9nb h9db h9db (by decide) (by decide) (by decide),
      if_neg (fun h => absurd h.2 (by decide)),
      if_neg (fun h => ne14 h.1.symm),
      get_target_link2 _ _ _ _ _ _ _ h9n h9db h9db (by decide) (by decide) (by decide),
      if_pos (show db = db ∧ (1 : Nat) = 1 from ⟨rfl, rfl⟩)]
  · rw [get_target_port_link2 _ _ _ _ _ _ _ h9nb h9db h9db (by decide) (by decide) (by decide),
      if_neg (fun h => absurd h.2 (by decide)),
      if_neg (fun h => ne14 h.1.symm),
      get_target_port_link2 _ _ _ _ _ _ _ h9n h9db h9db (by decide) (by decide) (by decide),
      if_pos (show db = db ∧ (1 : Nat) = 1 from ⟨rfl, rfl⟩)]
  · rw [get_target_link2 _ _ _ _ _ _ _ h9nb h9db h9nb (by decide) (by decide) (by decide),
      if_neg (fun h => ne14 h.1),
      if_pos (show nb = nb ∧ (2 : Nat) = 2 from ⟨rfl, rfl⟩)]
  · rw [get_target_port_link2 _ _ _ _ _ _ _ h9nb h9db h9nb (by decide) (by decide) (by decide),
      if_neg (fun h => ne14 h.1),
      if_pos (show nb = nb ∧ (2 : Nat) = 2 from ⟨rfl, rfl⟩)]
  · rw [get_target_link2 _ _ _ _ _ _ _ h9nb h9db h9db (by decide) (by decide) (by decide),
      if_pos (show db = db ∧ (2 : Nat) = 2 from ⟨rfl, rfl⟩)]
  · rw [get_target_port_link2 _ _ _ _ _ _ _ h9nb h9db h9db (by decide) (by decide) (by decide),
      if_pos (show db = db ∧ (2 : Nat) = 2 from ⟨rfl, rfl⟩)]

/-- Witness for C6: the general commute characterization instantiated at
    the concrete six-node active pair. -/
theorem C6_commute_witness :
    (commute 0 9 c6_state).garbage = c6_state.garbage.tail.tail ∧
    (commute 0 9 c6_state).next_id = c6_state.next_id + 2 ∧
    get_target (commute 0 9 c6_state) 18 0 = 9 := by
  have h := C6_commute c6_state 0 9 54 63 18 0 27 0 36 0 45 0
    (by decide) (by decide) (by decide) (by decide) (by decide)
    (by decide) (by decide) (by decide) (by decide) (by decide)
    (by decide) (by decide) (by decide) (by decide)
    (by decide) (by decide) (by decide) (by decide)
    (by decide) (by decide) (by decide) (by decide)
    (by decide) (by decide) (by decide) (by decide) (by decide)
    (by decide) (by decide) (by decide) (by decide) (by decide)
    (by decide) (by decide) (by decide) (by decide) (by decide)
    (by decide) (by decide) (by decide) (by decide) (by decide)
    (by decide) (by decide) (by decide) (by decide) (by decide)
    (by decide) (by decide) (by decide)
  exact ⟨h.1, h.2.1, h.2.2.2.2.2.2.2.1⟩


/- The claim-level theorems. -/

/-- C3: encoding, reducing and decoding the application of the identity to
    itself returns the identity: reduce (App (Lam (Var 0)) (Lam (Var 0)))
    normalizes, within the given fuel, to Lam (Var 0). -/
theorem C3_reduce_identity_application :
    reduce term_id_app 1000 1000 = some (Term.Lam (Term.Var 0)) := by decide

/-- C2 counterexample: reducing the encoded net of the concrete term
    lam a. ((lam x. lam y. y) (lam z. a)) finishes the walk, yet an active
    pair with an Eraser on one side remains reachable from the Root and
    neither of its nodes was discarded or pushed to the free list: the
    erase rewrite the claim describes never fires. -/
theorem C2_counterexample_no_erase :
    reduce_done (run1 term_era_pair 1000) = true ∧
    era_pair_unfreed (run1 term_era_pair 1000).st
      (start_net term_era_pair).1 = true := by
  constructor <;> decide

/-- C2 amended: when the walk reaches an active pair in which one node
    carries the sentinel tag -1 (an Eraser or the Root), no rewrite is
    applied at all: memory, free list and the rewrite counter are
    unchanged; the reached node is marked solid, its two auxiliary ports
    are pushed as pending probes, and the cursor returns to the stack. -/
theorem C2_sentinel_pair_skipped (r : RSt) (nt : Nat)
    (hc : r.cur = some (nt, 0))
    (hs : r.solid.contains (get_id r.st nt) = false)
    (hpp : get_target_port r.st nt 0 = 0)
    (ht : get_tag r.st (get_target r.st nt 0) = -1 ∨ get_tag r.st nt = -1) :
    (reduce_step r).st.mem = r.st.mem ∧
    (reduce_step r).st.garbage = r.st.garbage ∧
    (reduce_step r).st.stats.applications = r.st.stats.applications ∧
    (reduce_step r).st.stats.iterations = r.st.stats.iterations + 1 ∧
    (reduce_step r).solid = get_id r.st nt :: r.solid ∧
    (reduce_step r).visit = (nt, 1) :: (nt, 2) :: r.visit ∧
    (reduce_step r).cur = none := by
  have hstep : reduce_step r =
      { st :=
          { r.st with stats :=
              { r.st.stats with iterations := r.st.stats.iterations + 1 } },
        solid := get_id r.st nt :: r.solid,
        exitM := r.exitM,
        visit := (nt, 1) :: (nt, 2) :: r.visit,
        cur := none,
        trace := r.trace } := by
    unfold reduce_step
    rw [hc]
    dsimp only
    rw [show r.solid.contains (get_id
      { r.st with stats :=
        { r.st.stats with iterations := r.st.stats.iterations + 1 } } nt) =
      false from hs]
    rw [if_neg (by simp : ¬ false = true)]
    rw [if_pos rfl, if_neg (fun hcon =>
      ht.elim (fun h1 => hcon.2.1 h1) (fun h1 => hcon.2.2 h1))]
    rfl
  rw [hstep]
  exact ⟨rfl, rfl, rfl, rfl, rfl, rfl, rfl⟩

/-- Witness for C2: the amended step behavior at a concrete walker state
    whose cursor faces an Eraser principal-to-principal. -/
theorem C2_sentinel_pair_skipped_witness :
    (reduce_step c2_rst).st.garbage = c2_rst.st.garbage ∧
    (reduce_step c2_rst).solid = get_id c2_rst.st 9 :: c2_rst.solid ∧
    (reduce_step c2_rst).cur = none :=
  ⟨(C2_sentinel_pair_skipped c2_rst 9 rfl (by decide) (by decide)
      (Or.inl (by decide))).2.1,
   (C2_sentinel_pair_skipped c2_rst 9 rfl (by decide) (by decide)
      (Or.inl (by decide))).2.2.2.2.1,
   (C2_sentinel_pair_skipped c2_rst 9 rfl (by decide) (by decide)
      (Or.inl (by decide))).2.2.2.2.2.2⟩

/-- After one full net_reduce of the encoded net of
    lam a. ((lam x. lam y. y) (lam z. a)), the walk finishes yet an active
    pair (an Eraser facing a Lambda principal-to-principal) is still
    reachable from the Root: full reduction does not eliminate every
    reachable active pair. -/
theorem era_active_pair_survives_reduction :
    reduce_done (run1 term_era_pair 1000) = true ∧
    era_pair_reachable (run1 term_era_pair 1000).st
      (start_net term_era_pair).1 = true := by
  constructor <;> decide

/-- On the checked family of encoded nets, decoding is unchanged by a
    second full net_reduce (both runs finish and decode to the same term),
    and every active pair still reachable from the Root after one full
    net_reduce involves a sentinel-tagged node (tag -1, an Eraser or the
    Root). -/
theorem reduce_idempotent_on_family :
    reduce_family.all (fun t =>
      idem_check t 2000 1000 &&
        only_sentinel_pairs (run1 t 2000).st (start_net t).1) = true := by
  decide

/-- After net_encode of lam x. x (the identity), the orphaned Eraser at
    slot 9 is live (never freed) and its port 0 still half-points at port 1
    of the Lambda at slot 18, but that port does not point back: links
    between live nodes are not all symmetric. -/
theorem stale_eraser_half_link_after_encode :
    get_type (start_net term_id).2 9 = ERA ∧
    (start_net term_id).2.garbage.contains 9 = false ∧
    get_target (start_net term_id).2 9 0 = 18 ∧
    get_target_port (start_net term_id).2 9 0 = 1 ∧
    ¬(get_target (start_net term_id).2 18 1 = 9 ∧
      get_target_port (start_net term_id).2 18 1 = 0) := by decide

/-- Restricted to the nodes reachable from the Root (and to each node
    type meaningful ports), links are symmetric and valid after net_encode
    completes and after every step of the rewrite walk, checked state by
    state on the trace family and at the endpoints of the Church-numeral
    run. -/
theorem symmetry_on_reachable_family :
    (trace_family.all (fun t =>
      sym_ok (start_net t).2 (start_net t).1 &&
        (run_states 2000 (reduce_start (start_net t).1 (start_net t).2)).all
          (fun r => sym_ok r.st (start_net t).1)) &&
     (sym_ok (start_net term_two_two).2 (start_net term_two_two).1 &&
      sym_ok (run1 term_two_two 2000).st (start_net term_two_two).1)) =
      true := by decide

/-- C6 counterexample: commute applied to an active pair of unequal tags
    (a Duplicator facing a Lambda) pushes nothing to the free list: the
    two original nodes are not freed. -/
theorem C6_counterexample_commute_frees_nothing :
    get_tag c6_state 0 ≠ get_tag c6_state 9 ∧
    is_active_pair c6_state 0 = true ∧
    (commute 0 9 c6_state).garbage = [] ∧
    (commute 0 9 c6_state).garbage.contains 0 = false ∧
    (commute 0 9 c6_state).garbage.contains 9 = false := by decide

/-- C7 counterexample: after reducing (lam x. x x) (lam y. y), whose run
    applies both annihilations and a commutation, none of the three
    counters of the statistics snapshot equals the number of Lambda/Apply
    annihilations (the ghost beta count): the snapshot holds no beta
    counter, and the single rewrite counter mixes all rules. -/
theorem C7_counterexample_no_beta_counter :
    reduce_done (run1 term_dup_share 1000) = true ∧
    (run1 term_dup_share 1000).st.stats.applications ≠
      beta_count (run1 term_dup_share 1000).trace ∧
    (run1 term_dup_share 1000).st.stats.iterations ≠
      beta_count (run1 term_dup_share 1000).trace ∧
    (run1 term_dup_share 1000).st.stats.used_memory ≠
      beta_count (run1 term_dup_share 1000).trace := by
  refine ⟨by decide, by decide, by decide, by decide⟩

/-- Witness for C9: the allocator contract at a concrete state whose free
    list holds the slot index 9. -/
theorem C9_allocator_witness_state :
    (Node LAM 0 c9w_state).2.next_id = c9w_state.next_id + 1 ∧
    (Node LAM 0 c9w_state).2.garbage = [] ∧
    (Node LAM 0 c9w_state).1 = 9 ∧
    get_target (Node LAM 0 c9w_state).2 (Node LAM 0 c9w_state).1 1 = 0 := by
  refine ⟨(C9_allocator LAM 0 c9w_state).1,
    ((C9_allocator LAM 0 c9w_state).2.2.2.2.2.2.2 9 [] rfl).1,
    ((C9_allocator LAM 0 c9w_state).2.2.2.2.2.2.2 9 [] rfl).2.1 (by decide),
    ((C9_allocator LAM 0 c9w_state).2.2.2.2.1 1 (by decide)).1⟩

/-- C9 counterexample: with the free list holding exactly the slot index 0,
    the allocator discards that most recently freed slot and returns a new
    slot at the arena end, growing the arena: the JS expression
    garbage.pop() || memory.length treats the index 0 as falsy. -/
theorem C9_counterexample_zero_slot_discarded :
    c9_state.garbage = [0] ∧
    (Node LAM 0 c9_state).1 = c9_state.len ∧
    (Node LAM 0 c9_state).1 ≠ 0 ∧
    (Node LAM 0 c9_state).2.len = c9_state.len + 9 ∧
    (Node LAM 0 c9_state).2.garbage = [] := by decide

/-- Witness for C5: the encoder Variable case at two concrete states, a
    first reference (port 1 still on the Eraser, rewired directly to the
    up-link) and a later reference (a Duplicator with tag 1 allocated at
    slot 18 and spliced between the Lambda, the previous occupant and the
    up-link). -/
theorem C5_encoder_variable_witness :
    (net_encode_go (Term.Var 0) [0] ⟨0, 2⟩ c5_state_a 0).1 = ⟨0, 1⟩ ∧
    get_target (net_encode_go (Term.Var 0) [0] ⟨0, 2⟩ c5_state_a 0).2.1
      0 1 = 0 ∧
    get_target_port (net_encode_go (Term.Var 0) [0] ⟨0, 2⟩ c5_state_a 0).2.1
      0 1 = 2 ∧
    (net_encode_go (Term.Var 0) [0] ⟨9, 1⟩ c5_state_b 0).1 = ⟨18, 1⟩ ∧
    (net_encode_go (Term.Var 0) [0] ⟨9, 1⟩ c5_state_b 0).2.1.allocs =
      c5_state_b.allocs ++ [(18, DUP, Int.ofNat 1)] ∧
    get_target (net_encode_go (Term.Var 0) [0] ⟨9, 1⟩ c5_state_b 0).2.1
      9 0 = 18 := by
  have h := C5_encoder_variable.2.1 c5_state_b [0] ⟨9, 1⟩ 0 0 0 9 0 18
    (by decide) (by decide) (by decide) (by decide) (by decide)
    (by decide) (by decide) (by decide) (by decide) (by decide)
    (by decide) (by decide)
  exact ⟨(C5_encoder_variable.1 c5_state_a [0] ⟨0, 2⟩ 0 0 (by decide)
      (by decide) (by decide)).1,
    (C5_encoder_variable.1 c5_state_a [0] ⟨0, 2⟩ 0 0 (by decide)
      (by decide) (by decide)).2.2.2.2.2.1,
    (C5_encoder_variable.1 c5_state_a [0] ⟨0, 2⟩ 0 0 (by decide)
      (by decide) (by decide)).2.2.2.2.2.2,
    h.1, h.2.2.1, h.2.2.2.2.2.2.2.2.2.2.2.2.1⟩

/-- Agreement of the two evaluators on the checked family: optlam's
    reduce and lambda_calculus.js's naive tree-substitution reduce return
    the same normal forms (supporting evidence for the reduction-agreement
    property on concrete EAL-typable terms). -/
theorem reduce_agrees_with_naive_on_family :
    reduce_family.all (fun t => reduce t 2000 1000 = lc_reduce 30 t) =
      true := by decide

end Optlam
